import Mathlib

/-!
Beacon contract validation (src/beacon.cpp).

A shallow embedding of the functions of beacon.cpp: the payload decoder
`GetBeaconElements`, the consensus rule `VerifyBeaconContractTx`, the freshness queries
`GetBeaconPublicKey`, `HasActiveBeacon` and `BeaconTimeStamp`, and the key manager
`GenerateBeaconKeys`, `StoreBeaconKeys`, `ActivateBeaconKeys`; followed by the properties
proved about them.

Conventions of the embedding

* `std::string` is a Lean `String`, one character per byte.
* `int64_t` values are `Int`; the one subtraction the validator performs is reduced
  into the 64-bit two's complement range by `wrapInt64`.
* `unsigned int` values (`nLockTime`, `nTime`) are `Nat`. The declarations of
  `CTransaction`, `CBlockIndex` and `AppCacheEntry` are in headers outside beacon.cpp;
  the lock time and block time are the 32-bit unsigned fields of the transaction and
  block format, the cache timestamp is the `int64_t` beacon.cpp reads it into.
* Functions that beacon.cpp calls but does not define (`ExtractXML`, `DecodeBase64`,
  `split`) are fields of `Externals`; the process-wide variables it reads
  (`fTestNet`, `fDebug10`, `pindexBest`, the application cache behind `ReadCache`)
  are fields of `Globals`.
* The key store and signing functions the key manager calls (`GetArgument`,
  `SetArgument`, `WriteKey`, `SignBlockWithCPID`, `VerifyCPIDSignature`, `HexStr`) are
  fields of `KeyServices`, over an explicit state of the key store; the random values
  it draws are a `KeyDraws`.
* `LogPrintf` appends a `LogLine` to a log that is returned next to the result.
-/

namespace Beacon

/-! ## Data model -/

/-- One entry of the application cache: `AppCacheEntry` of appcache.h, a value and the
time at which it was stored. -/
structure AppCacheEntry where
  value : String
  timestamp : Int
deriving DecidableEq, Repr

/-- The fields of the best block index that matter to beacon.cpp. -/
structure CBlockIndex where
  nTime : Nat
  nHeight : Int
deriving DecidableEq, Repr

/-- The fields of a transaction read by `VerifyBeaconContractTx`: the contract payload
`hashBoinc` and the lock time `nLockTime` (an `unsigned int`). -/
structure CTransaction where
  hashBoinc : String
  nLockTime : Nat
deriving DecidableEq, Repr

/-- An argument handed to `LogPrintf`: a string (`%s`) or a 64-bit integer (the
conversion `PRId64`, written `%d` in the format strings below). -/
inductive LogArg where
  | str (s : String)
  | i64 (n : Int)
deriving DecidableEq, Repr

/-- One call of `LogPrintf`: its format string and its arguments. -/
structure LogLine where
  fmt : String
  args : List LogArg
deriving DecidableEq, Repr

/-- The helper functions beacon.cpp calls and does not define. -/
structure Externals where
  /-- `ExtractXML(XMLdata, key, key_end)`. -/
  ExtractXML : String → String → String → String
  /-- `DecodeBase64(str)`. -/
  DecodeBase64 : String → String
  /-- `split(s, delim)`, a `std::vector<std::string>`. -/
  split : String → String → List String

/-- The process-wide state beacon.cpp reads. `pindexBest` is `none` for a NULL pointer;
`ReadCache section key` is the cache lookup, which yields an entry with an empty value
for a key that is absent. -/
structure Globals where
  fTestNet : Bool
  fDebug10 : Bool
  pindexBest : Option CBlockIndex
  ReadCache : String → String → AppCacheEntry

/-- The three output strings of `GetBeaconElements`. -/
structure BeaconElements where
  cpid : String
  address : String
  publickey : String
deriving DecidableEq, Repr

/-! ## Machine arithmetic and C strings -/

/-- Reduction of an integer into the `int64_t` range (two's complement). -/
def wrapInt64 (x : Int) : Int :=
  (x + 9223372036854775808) % 18446744073709551616 - 9223372036854775808

/-- The character sequence `s.c_str()` denotes when it is read back as a C string: the
bytes of `s` before its first NUL byte. -/
def c_str (s : String) : String :=
  String.mk (s.data.takeWhile (fun c => c ≠ Char.ofNat 0))

/-! ## beacon.cpp -/

/-- `GetBeaconElements` (beacon.cpp 98-107). The three reference parameters are passed
in as `out` and returned. The three vector accesses are in bounds by the size check. -/
def GetBeaconElements (X : Externals) (sBeacon : String) (out : BeaconElements) :
    BeaconElements :=
  if sBeacon = "" then out else
  let sContract := X.DecodeBase64 sBeacon
  let vContract := X.split (c_str sContract) ";"
  if h : vContract.length < 4 then out else
  { cpid := vContract[0],
    address := vContract[2],
    publickey := vContract[3] }

/-- `VerifyBeaconContractTx` (beacon.cpp 158-227): the decision and the lines logged. -/
def VerifyBeaconContractTx (X : Externals) (g : Globals) (tx : CTransaction) :
    Bool × List LogLine :=
  let chkMessageType := X.ExtractXML tx.hashBoinc "<MT>" "</MT>"
  let chkMessageAction := X.ExtractXML tx.hashBoinc "<MA>" "</MA>"
  if chkMessageType ≠ "beacon" then (true, []) else
  if chkMessageAction ≠ "A" then (true, []) else
  let chkMessageContract := X.ExtractXML tx.hashBoinc "<MV>" "</MV>"
  let chkMessageContractCPID := X.ExtractXML tx.hashBoinc "<MK>" "</MK>"
  let tx_out := GetBeaconElements X chkMessageContract ⟨"", "", ""⟩
  if tx_out.cpid = "" ∨ tx_out.address = "" ∨ tx_out.publickey = ""
      ∨ chkMessageContractCPID = "" then (false, []) else
  let beaconEntry := g.ReadCache "beacon" chkMessageContractCPID
  if beaconEntry.value = "" then
    (true,
      if g.fDebug10 then
        [⟨"VBCTX : No Previous beacon found for CPID %s", [.str chkMessageContractCPID]⟩]
      else [])
  else
  let chkiAge : Int :=
    match g.pindexBest with
    | some _ => wrapInt64 ((tx.nLockTime : Int) - beaconEntry.timestamp)
    | none => 0
  let chkSecondsBase : Int := 60 * 24 * 30 * 60
  if chkiAge ≤ chkSecondsBase * 5 ∧ chkiAge ≥ 1 then
    (false,
      if g.fDebug10 then
        [⟨"VBCTX : Beacon age violation. Beacon Age %d < Required Age %d",
          [.i64 chkiAge, .i64 (chkSecondsBase * 5)]⟩]
      else [])
  else
  if chkiAge ≥ chkSecondsBase * 5 ∧ chkiAge ≤ chkSecondsBase * 6 then
    let chk_out := GetBeaconElements X beaconEntry.value ⟨"", "", ""⟩
    if tx_out.publickey ≠ chk_out.publickey then
      (false,
        if g.fDebug10 then
          [⟨"VBCTX : Beacon tx publickey != publickey in chain. %s != %s",
            [.str tx_out.publickey, .str chk_out.publickey]⟩]
        else [])
    else (true, [])
  else (true, [])

/-- `RetrieveBeaconValueWithMaxAge` (beacon.cpp 143-156). The block time is an
`unsigned int`, the subtraction is done in `int64_t`. -/
def RetrieveBeaconValueWithMaxAge (g : Globals) (cpid : String) (iMaxSeconds : Int) :
    String :=
  let entry := g.ReadCache "beacon" cpid
  let iAge : Int :=
    match g.pindexBest with
    | some pindex => wrapInt64 ((pindex.nTime : Int) - entry.timestamp)
    | none => 0
  if iAge > iMaxSeconds then "" else entry.value

/-- `GetBeaconPublicKey` (beacon.cpp 109-122). -/
def GetBeaconPublicKey (X : Externals) (g : Globals) (cpid : String)
    (bAdvertisingBeacon : Bool) : String :=
  let iMonths : Int := if bAdvertisingBeacon then 5 else 6
  let iMaxSeconds : Int := 60 * 24 * 30 * iMonths * 60
  let sBeacon := RetrieveBeaconValueWithMaxAge g cpid iMaxSeconds
  if sBeacon = "" then "" else
  let sContract := X.DecodeBase64 sBeacon
  let vContract := X.split (c_str sContract) ";"
  if h : vContract.length < 4 then "" else
  let sBeaconPublicKey := vContract[3]
  sBeaconPublicKey

/-- `BeaconTimeStamp` (beacon.cpp 124-136): the time stamp and the lines logged.
`GetRSAWeightByCPIDWithRA` is declared in beacon.cpp and defined elsewhere. -/
def BeaconTimeStamp (GetRSAWeightByCPIDWithRA : String → Int) (g : Globals)
    (cpid : String) (bZeroOutAfterPOR : Bool) : Int × List LogLine :=
  let entry := g.ReadCache "beacon" cpid
  let sBeacon := entry.value
  let iLocktime := entry.timestamp
  let iRSAWeight := GetRSAWeightByCPIDWithRA cpid
  let log : List LogLine :=
    if g.fDebug10 then
      [⟨"Beacon %s, Weight %d, Locktime %d",
        [.str sBeacon, .i64 iRSAWeight, .i64 iLocktime]⟩]
    else []
  if bZeroOutAfterPOR = true ∧ iRSAWeight = 0 then (0, log) else (iLocktime, log)

/-- `HasActiveBeacon` (beacon.cpp 138-141). -/
def HasActiveBeacon (X : Externals) (g : Globals) (cpid : String) : Bool :=
  decide (GetBeaconPublicKey X g cpid false = "") == false

/-! ### The key manager -/

/-- `GetNetSuffix` (beacon.cpp 16-19). -/
def GetNetSuffix (g : Globals) : String :=
  if g.fTestNet then "testnet" else ""

/-- The key store and signing functions beacon.cpp calls and does not define. `σ` is the
state of the local key store; reading and signing may look at it, `WriteKey` and
`SetArgument` yield its next state. `SignBlockWithCPID` gives its result together with
the two strings it writes, the signature and the error. -/
structure KeyServices (σ : Type) where
  /-- `GetArgument(arg, defaultvalue)`. -/
  GetArgument : σ → String → String → String
  /-- `SetArgument(argKey, argValue)`. -/
  SetArgument : σ → String → String → σ
  /-- `WriteKey(sKey, sValue)`. -/
  WriteKey : σ → String → String → Bool × σ
  /-- `SignBlockWithCPID(sCPID, sBlockHash, sSignature, sError, bAdvertising)`. -/
  SignBlockWithCPID : σ → String → String → Bool → Bool × String × String
  /-- `VerifyCPIDSignature(sCPID, sBlockHash, sSignature)`. -/
  VerifyCPIDSignature : σ → String → String → String → Bool
  /-- `HexStr` of a byte sequence. -/
  HexStr : String → String

/-- The random values one call of `GenerateBeaconKeys` can draw: the hex form of
`GetRandHash()` and the private and public key of `key.MakeNewKey(false)`. -/
structure KeyDraws where
  hashBlock : String
  vchPrivKey : String
  vchPubKey : String

/-- What `GenerateBeaconKeys` leaves behind: its result, the two output strings, the
lines logged and the key store. -/
structure GeneratedKeys (σ : Type) where
  result : Bool
  sOutPubKey : String
  sOutPrivKey : String
  log : List LogLine
  store : σ

/-- `GenerateBeaconKeys` (beacon.cpp 22-63). -/
def GenerateBeaconKeys {σ : Type} (K : KeyServices σ) (g : Globals) (st : σ)
    (draws : KeyDraws) (cpid : String) : GeneratedKeys σ :=
  let sOutPrivKey := K.GetArgument st ("privatekey" ++ cpid ++ GetNetSuffix g) ""
  let sOutPubKey := K.GetArgument st ("publickey" ++ cpid ++ GetNetSuffix g) ""
  let generate (log : List LogLine) : GeneratedKeys σ :=
    { result := true,
      sOutPubKey := K.HexStr draws.vchPubKey,
      sOutPrivKey := K.HexStr draws.vchPrivKey,
      log := log, store := st }
  if sOutPrivKey ≠ "" ∧ sOutPubKey ≠ "" then
    let hashBlock := draws.hashBlock
    let signed := K.SignBlockWithCPID st cpid hashBlock true
    if signed.1 = false then
      generate [⟨"GenerateBeaconKeys::Failed to sign block with cpid with existing keys; generating new key pair -> %s",
        [.str signed.2.2]⟩]
    else
      let fResult := K.VerifyCPIDSignature st cpid hashBlock signed.2.1
      if fResult = true then
        { result := true, sOutPubKey := sOutPubKey, sOutPrivKey := sOutPrivKey,
          log := [⟨"GenerateBeaconKeys::Current keypair is valid.", []⟩], store := st }
      else
        generate [⟨"GenerateBeaconKeys::Signing block with CPID was successful; However Verifying CPID Sign was not; Key pair is not valid, generating new key pair",
          []⟩]
  else generate []

/-- `StoreBeaconKeys` (beacon.cpp 65-77): the result and the key store afterwards. The
second `WriteKey` is the right operand of `||`. -/
def StoreBeaconKeys {σ : Type} (K : KeyServices σ) (g : Globals) (st : σ)
    (cpid pubKey privKey : String) : Bool × σ :=
  let w1 := K.WriteKey st ("publickey" ++ cpid ++ GetNetSuffix g) pubKey
  if w1.1 = false then (false, w1.2) else
  let w2 := K.WriteKey w1.2 ("privatekey" ++ cpid ++ GetNetSuffix g) privKey
  if w2.1 = false then (false, w2.2) else (true, w2.2)

/-- `GetStoredBeaconPrivateKey` (beacon.cpp 79-82). -/
def GetStoredBeaconPrivateKey {σ : Type} (K : KeyServices σ) (g : Globals) (st : σ)
    (cpid : String) : String :=
  K.GetArgument st ("privatekey" ++ cpid ++ GetNetSuffix g) ""

/-- `GetStoredBeaconPublicKey` (beacon.cpp 84-87). -/
def GetStoredBeaconPublicKey {σ : Type} (K : KeyServices σ) (g : Globals) (st : σ)
    (cpid : String) : String :=
  K.GetArgument st ("publickey" ++ cpid ++ GetNetSuffix g) ""

/-- `ActivateBeaconKeys` (beacon.cpp 89-96). -/
def ActivateBeaconKeys {σ : Type} (K : KeyServices σ) (g : Globals) (st : σ)
    (cpid pubKey privKey : String) : σ :=
  let st1 := K.SetArgument st ("publickey" ++ cpid ++ GetNetSuffix g) pubKey
  K.SetArgument st1 ("privatekey" ++ cpid ++ GetNetSuffix g) privKey

/-! ## Helper functions that are not part of beacon.cpp

`ExtractXML`, `DecodeBase64` and `split` are defined elsewhere in the repository. The
general properties below hold for every choice of them (`Externals`); the models here
follow the specification and serve the concrete instances and the round trip. -/

/-- Modelled from the spec: the search underlying `ExtractXML` ("a generic
delimiter-based field extractor"), whose source is missing. `findSub pat s` is the text
before the first occurrence of `pat` in `s` and the text after it. -/
def findSub (pat : List Char) : List Char → Option (List Char × List Char)
  | [] => if pat = [] then some ([], []) else none
  | c :: cs =>
    if pat.isPrefixOf (c :: cs) then some ([], (c :: cs).drop pat.length)
    else (findSub pat cs).map fun r => (c :: r.1, r.2)

/-- Modelled from the spec: `ExtractXML` ("extract_tagged(payload, open_tag, close_tag)
-> string (empty if tag absent)"), whose source is missing: the text between the first
`key` and the next `key_end`, empty when either is absent. -/
def ExtractXML (XMLdata key key_end : String) : String :=
  match findSub key.data XMLdata.data with
  | none => ""
  | some (_, rest) =>
    match findSub key_end.data rest with
    | none => ""
    | some (body, _) => String.mk body

/-- Modelled from the spec: the value of a character of the base64 alphabet ("Base64
codec: standard decode"); the codec's source is missing. -/
def base64Value (c : Char) : Option Nat :=
  let n := c.toNat
  if 65 ≤ n ∧ n ≤ 90 then some (n - 65)
  else if 97 ≤ n ∧ n ≤ 122 then some (n - 71)
  else if 48 ≤ n ∧ n ≤ 57 then some (n + 4)
  else if n = 43 then some 62
  else if n = 47 then some 63
  else none

/-- Modelled from the spec: the base64 character of a 6-bit value (standard alphabet);
the codec's source is missing. -/
def base64Char (n : Nat) : Char :=
  if n < 26 then Char.ofNat (n + 65)
  else if n < 52 then Char.ofNat (n + 71)
  else if n < 62 then Char.ofNat (n - 4)
  else if n = 62 then '+'
  else '/'

/-- Modelled from the spec: the 6-bit values of the leading run of alphabet characters;
decoding stops at the first character outside the alphabet (padding included). -/
def base64Sextets : List Char → List Nat
  | [] => []
  | c :: cs =>
    match base64Value c with
    | some n => n :: base64Sextets cs
    | none => []

/-- Modelled from the spec: standard base64, 6-bit values to bytes, four to three, a
final group of two or three giving one or two bytes. -/
def base64Bytes : List Nat → List Nat
  | a :: b :: c :: d :: rest =>
    (a * 4 + b / 16) :: (b % 16 * 16 + c / 4) :: (c % 4 * 64 + d) :: base64Bytes rest
  | [a, b, c] => [a * 4 + b / 16, b % 16 * 16 + c / 4]
  | [a, b] => [a * 4 + b / 16]
  | _ => []

/-- Modelled from the spec: `DecodeBase64` ("Base64 codec: standard decode"), whose
source is missing. -/
def DecodeBase64 (str : String) : String :=
  String.mk ((base64Bytes (base64Sextets str.data)).map Char.ofNat)

/-- Modelled from the spec: standard base64 of a list of bytes, with `=` padding; the
codec's source is missing. -/
def base64Encode : List Nat → List Char
  | x :: y :: z :: rest =>
    base64Char (x / 4) :: base64Char (x % 4 * 16 + y / 16) ::
      base64Char (y % 16 * 4 + z / 64) :: base64Char (z % 64) :: base64Encode rest
  | [x, y] => [base64Char (x / 4), base64Char (x % 4 * 16 + y / 16), base64Char (y % 16 * 4), '=']
  | [x] => [base64Char (x / 4), base64Char (x % 4 * 16), '=', '=']
  | [] => []

/-- Modelled from the spec: `EncodeBase64`, the inverse of the standard decode; its
source is missing and beacon.cpp does not call it. -/
def EncodeBase64 (str : String) : String :=
  String.mk (base64Encode (str.data.map Char.toNat))

/-- Modelled from the spec: the loop of `split`. `cur` holds the current field in
reverse, `skip` counts the characters of a delimiter just matched that are still to be
passed over. An empty delimiter never matches. -/
def splitLoop (delim : List Char) : List Char → List Char → Nat → List (List Char)
  | [], cur, _ => [cur.reverse]
  | _ :: cs, cur, skip + 1 => splitLoop delim cs cur skip
  | c :: cs, cur, 0 =>
    if delim ≠ [] ∧ delim.isPrefixOf (c :: cs) = true then
      cur.reverse :: splitLoop delim cs [] (delim.length - 1)
    else splitLoop delim cs (c :: cur) 0

/-- Modelled from the spec: `split(s, delim)` ("splits on `;`"), whose source is
missing: the fields of `s` between the occurrences of `delim`, empty fields kept. -/
def split (s delim : String) : List String :=
  (splitLoop delim.data s.data [] 0).map String.mk

/-- The modelled helper functions, together. -/
def stdExternals : Externals :=
  { ExtractXML := ExtractXML, DecodeBase64 := DecodeBase64, split := split }

/-! ## Concrete instances -/

/-- A cache with one beacon: CPID "cpid1" holds the record "cpid1;h;addr;pkA" stored at
time 1000; every other key is absent. -/
def cache1 (sect key : String) : AppCacheEntry :=
  if sect = "beacon" ∧ key = "cpid1" then ⟨"Y3BpZDE7aDthZGRyO3BrQQ==", 1000⟩ else ⟨"", 0⟩

/-- A node with a best block and the cache `cache1`. -/
def node1 : Globals :=
  { fTestNet := false, fDebug10 := false, pindexBest := some ⟨2000, 10⟩, ReadCache := cache1 }

/-- An add-beacon payload for "cpid1" carrying the record "cpid1;h2;addr;pkB". -/
def payloadB : String :=
  "<MT>beacon</MT><MK>cpid1</MK><MV>Y3BpZDE7aDI7YWRkcjtwa0I=</MV><MA>A</MA>"

/-- An add-beacon payload for "cpid1" carrying the record "cpid1;h;addr;pkA". -/
def payloadA : String :=
  "<MT>beacon</MT><MK>cpid1</MK><MV>Y3BpZDE7aDthZGRyO3BrQQ==</MV><MA>A</MA>"

/-- The node `node1` before any block is known: `pindexBest` is NULL. -/
def node0 : Globals :=
  { fTestNet := false, fDebug10 := false, pindexBest := none, ReadCache := cache1 }

/-- An add-beacon payload for "cpid2", which has no cached beacon, carrying the record
"cpid2;h;addr;pkC". -/
def payloadNew : String :=
  "<MT>beacon</MT><MK>cpid2</MK><MV>Y3BpZDI7aDthZGRyO3BrQw==</MV><MA>A</MA>"

/-- A beacon payload with action "D" and neither contract value nor CPID. -/
def payloadDelete : String :=
  "<MT>beacon</MT><MK></MK><MV></MV><MA>D</MA>"

/-- An add-beacon payload for "cpid1" whose contract value decodes to the three fields
"a;b;c". -/
def payloadShort : String :=
  "<MT>beacon</MT><MK>cpid1</MK><MV>YTtiO2M=</MV><MA>A</MA>"

/-- A cache with four beacons stored at time 1000: "cpid1" as in `cache1`; "cpid3" with
a value that decodes to the three fields "a;b;c"; "cpidN" with a value that decodes to
"a;b;c;d", a NUL byte, "e"; "cpidM" with a value that decodes to "a;b", a NUL byte,
";c;d". -/
def cache2 (sect key : String) : AppCacheEntry :=
  if sect = "beacon" ∧ key = "cpid1" then ⟨"Y3BpZDE7aDthZGRyO3BrQQ==", 1000⟩
  else if sect = "beacon" ∧ key = "cpid3" then ⟨"YTtiO2M=", 1000⟩
  else if sect = "beacon" ∧ key = "cpidN" then ⟨"YTtiO2M7ZABl", 1000⟩
  else if sect = "beacon" ∧ key = "cpidM" then ⟨"YTtiADtjO2Q=", 1000⟩
  else ⟨"", 0⟩

/-- A test-net node with debug logging, another best block and the cache `cache2`. -/
def node2 : Globals :=
  { fTestNet := true, fDebug10 := true, pindexBest := some ⟨5000, 77⟩, ReadCache := cache2 }

/-- The node `node1` when its best block is 5*2592000 + 100 seconds younger than the
beacon of "cpid1". -/
def nodeLate : Globals :=
  { fTestNet := false, fDebug10 := false, pindexBest := some ⟨12961100, 20⟩,
    ReadCache := cache1 }

/-- The node `nodeLate` with the cache `cache2`. -/
def nodeLate2 : Globals :=
  { fTestNet := false, fDebug10 := true, pindexBest := some ⟨12961100, 20⟩,
    ReadCache := cache2 }

/-- An add-beacon payload that claims "cpid2" and carries the record "cpid1;h2;addr;pkB". -/
def payloadMismatch : String :=
  "<MT>beacon</MT><MK>cpid2</MK><MV>Y3BpZDE7aDI7YWRkcjtwa0I=</MV><MA>A</MA>"

/-- An add-beacon payload for "cpid3" carrying the record "cpid3;h;addr;pkC". -/
def payloadC3 : String :=
  "<MT>beacon</MT><MK>cpid3</MK><MV>Y3BpZDM7aDthZGRyO3BrQw==</MV><MA>A</MA>"

/-- A key store for the concrete instances: the entries, newest first, and the number of
writes that will still succeed. -/
structure KeyFile where
  entries : List (String × String)
  writesLeft : Nat
deriving DecidableEq, Repr

/-- The value stored under a name in a `KeyFile`, `d` when there is none. -/
def KeyFile.get (st : KeyFile) (k d : String) : String :=
  (st.entries.lookup k).getD d

/-- Key services over a `KeyFile` for the concrete instances. A write fails once
`writesLeft` is used up and then changes nothing. Signing and verification are
stand-ins: signing needs a stored main-net private key and appends the challenge to it,
and only the private key "good" gives a signature that verifies. -/
def demoKeys : KeyServices KeyFile :=
  { GetArgument := fun st k d => st.get k d,
    SetArgument := fun st k v => { st with entries := (k, v) :: st.entries },
    WriteKey := fun st k v =>
      match st.writesLeft with
      | 0 => (false, st)
      | n + 1 => (true, { entries := (k, v) :: st.entries, writesLeft := n }),
    SignBlockWithCPID := fun st cpid hash _ =>
      if st.get ("privatekey" ++ cpid) "" = "" then (false, "", "no private key")
      else (true, st.get ("privatekey" ++ cpid) "" ++ hash, ""),
    VerifyCPIDSignature := fun _ _ hash sig => decide (sig = "good" ++ hash),
    HexStr := fun bytes => "hex:" ++ bytes }

/-- A key file that holds a working pair for "cpid1" and accepts one more write. -/
def keyFile1 : KeyFile :=
  { entries := [("privatekeycpid1", "good"), ("publickeycpid1", "goodpub")],
    writesLeft := 1 }

/-- A key file that holds a pair for "cpid1" whose signatures do not verify. -/
def keyFile2 : KeyFile :=
  { entries := [("privatekeycpid1", "stale"), ("publickeycpid1", "stalepub")],
    writesLeft := 0 }

/-- An empty key file that accepts two writes. -/
def keyFile3 : KeyFile :=
  { entries := [], writesLeft := 2 }

/-- The values a call of `GenerateBeaconKeys` draws in the concrete instances. -/
def draws1 : KeyDraws :=
  { hashBlock := "c0ffee", vchPrivKey := "newpriv", vchPubKey := "newpub" }

/-! ## Vocabulary of the statements

Names for the sub-expressions of `VerifyBeaconContractTx` that the properties speak
about. The validator itself is defined above without them. -/

/-- The `MT` tag of the payload. -/
abbrev messageType (X : Externals) (tx : CTransaction) : String :=
  X.ExtractXML tx.hashBoinc "<MT>" "</MT>"

/-- The `MA` tag of the payload. -/
abbrev messageAction (X : Externals) (tx : CTransaction) : String :=
  X.ExtractXML tx.hashBoinc "<MA>" "</MA>"

/-- The `MV` tag of the payload: the contract value. -/
abbrev contractValue (X : Externals) (tx : CTransaction) : String :=
  X.ExtractXML tx.hashBoinc "<MV>" "</MV>"

/-- The `MK` tag of the payload: the claimed CPID. -/
abbrev claimedCPID (X : Externals) (tx : CTransaction) : String :=
  X.ExtractXML tx.hashBoinc "<MK>" "</MK>"

/-- The empty output strings a caller hands to `GetBeaconElements`. -/
abbrev noElements : BeaconElements := ⟨"", "", ""⟩

/-- What `GetBeaconElements` decodes from the contract value of the transaction. -/
abbrev txElements (X : Externals) (tx : CTransaction) : BeaconElements :=
  GetBeaconElements X (contractValue X tx) noElements

/-- The cache entry of the claimed CPID. -/
abbrev cachedEntry (X : Externals) (g : Globals) (tx : CTransaction) : AppCacheEntry :=
  g.ReadCache "beacon" (claimedCPID X tx)

/-- What `GetBeaconElements` decodes from the cached beacon of the claimed CPID. -/
abbrev cachedElements (X : Externals) (g : Globals) (tx : CTransaction) : BeaconElements :=
  GetBeaconElements X (cachedEntry X g tx).value noElements

/-- An add-beacon transaction: message type "beacon", action "A". -/
abbrev IsAddBeacon (X : Externals) (tx : CTransaction) : Prop :=
  messageType X tx = "beacon" ∧ messageAction X tx = "A"

/-- A complete contract: the three decoded elements and the claimed CPID are non-empty. -/
abbrev IsComplete (X : Externals) (tx : CTransaction) : Prop :=
  (txElements X tx).cpid ≠ "" ∧ (txElements X tx).address ≠ "" ∧
    (txElements X tx).publickey ≠ "" ∧ claimedCPID X tx ≠ ""

/-- A field list from which no complete beacon comes: fewer than 4 fields, or an empty
field 0, 2 or 3. -/
abbrev FieldsIncomplete (F : List String) : Prop :=
  F.length < 4 ∨ F[0]? = some "" ∨ F[2]? = some "" ∨ F[3]? = some ""

/-- A string of bytes: every character stands for a value below 256. -/
abbrev IsByteString (s : String) : Prop :=
  ∀ c ∈ s.data, c.toNat < 256

/-- The wire form of a beacon record: the four fields joined by `;`, in base64. -/
abbrev encodeBeacon (cpid hash_rand address public_key : String) : String :=
  EncodeBase64 (cpid ++ ";" ++ hash_rand ++ ";" ++ address ++ ";" ++ public_key)

/-- The age of the cached beacon at the lock time of the transaction: lock time minus
cached timestamp, as integers, before any reduction to 64 bits. -/
abbrev lockAge (X : Externals) (g : Globals) (tx : CTransaction) : Int :=
  (tx.nLockTime : Int) - (cachedEntry X g tx).timestamp

/-- The age of the cached beacon of `cpid` at the time of the block `b`: block time
minus cached timestamp, as integers, before any reduction to 64 bits. -/
abbrev blockAge (g : Globals) (cpid : String) (b : CBlockIndex) : Int :=
  (b.nTime : Int) - (g.ReadCache "beacon" cpid).timestamp

/-- The fields `GetBeaconPublicKey` splits the cached value of `cpid` into. -/
abbrev cachedFields (X : Externals) (g : Globals) (cpid : String) : List String :=
  X.split (c_str (X.DecodeBase64 (g.ReadCache "beacon" cpid).value)) ";"

/-- The name under which the private key of `cpid` is stored: the argument of
`GetArgument`, `WriteKey` and `SetArgument` in beacon.cpp. -/
abbrev privateKeyName (g : Globals) (cpid : String) : String :=
  "privatekey" ++ cpid ++ GetNetSuffix g

/-- The name under which the public key of `cpid` is stored. -/
abbrev publicKeyName (g : Globals) (cpid : String) : String :=
  "publickey" ++ cpid ++ GetNetSuffix g

/-- The probe of the stored keys succeeds: signing the challenge succeeds and the
signature verifies. -/
abbrev KeyProbeSucceeds {σ : Type} (K : KeyServices σ) (st : σ) (draws : KeyDraws)
    (cpid : String) : Prop :=
  (K.SignBlockWithCPID st cpid draws.hashBlock true).1 = true ∧
    K.VerifyCPIDSignature st cpid draws.hashBlock
      (K.SignBlockWithCPID st cpid draws.hashBlock true).2.1 = true

/-- The stored pair can be used again: both stored values are non-empty and the probe
succeeds. -/
abbrev StoredKeysValid {σ : Type} (K : KeyServices σ) (g : Globals) (st : σ)
    (draws : KeyDraws) (cpid : String) : Prop :=
  GetStoredBeaconPrivateKey K g st cpid ≠ "" ∧ GetStoredBeaconPublicKey K g st cpid ≠ "" ∧
    KeyProbeSucceeds K st draws cpid

/-- An observation of the key store that a write under one name does not change at
another name. -/
abbrev WriteKeepsOthers {σ : Type} (K : KeyServices σ) (read : σ → String → String) :
    Prop :=
  ∀ (s : σ) (k v k2 : String), k2 ≠ k → read (K.WriteKey s k v).2 k2 = read s k2

/-- An observation of the key store at which a successful write shows. -/
abbrev WriteShows {σ : Type} (K : KeyServices σ) (read : σ → String → String) : Prop :=
  ∀ (s : σ) (k v : String), (K.WriteKey s k v).1 = true → read (K.WriteKey s k v).2 k = v

/-- The line logged when a beacon is replaced too early. -/
abbrev ageViolationLine (age : Int) : LogLine :=
  ⟨"VBCTX : Beacon age violation. Beacon Age %d < Required Age %d",
    [.i64 age, .i64 12960000]⟩

/-! ## Lemmas shared by the properties -/

theorem wrapInt64_of_range (x : Int) (h1 : -9223372036854775808 ≤ x)
    (h2 : x < 9223372036854775808) : wrapInt64 x = x := by
  unfold wrapInt64
  omega

/-- With an overflowing difference of an `unsigned int` and an `int64_t` the wrapped
value is negative. -/
theorem wrapInt64_of_above (x : Int) (h1 : 9223372036854775808 ≤ x)
    (h2 : x < 18446744073709551616) : wrapInt64 x < 0 := by
  unfold wrapInt64
  omega

/-- The decision for a complete add-beacon transaction whose CPID has a cached beacon,
as a function of the age the validator computes. -/
theorem verify_of_cached (X : Externals) (g : Globals) (tx : CTransaction)
    (hadd : IsAddBeacon X tx) (hc : IsComplete X tx)
    (hval : (cachedEntry X g tx).value ≠ "") (age : Int)
    (hage : (match g.pindexBest with
      | some _ => wrapInt64 (lockAge X g tx)
      | none => 0) = age) :
    (VerifyBeaconContractTx X g tx).1 =
      if 1 ≤ age ∧ age ≤ 12960000 then false
      else if 12960000 ≤ age ∧ age ≤ 15552000 then
        decide ((txElements X tx).publickey = (cachedElements X g tx).publickey)
      else true := by
  obtain ⟨hMT, hMA⟩ := hadd
  obtain ⟨h1, h2, h3, h4⟩ := hc
  simp only [messageType, messageAction, txElements, contractValue, claimedCPID,
    cachedEntry, cachedElements, noElements, lockAge] at *
  simp only [VerifyBeaconContractTx, hMT, hMA, hage]
  simp only [ne_eq, not_true_eq_false, if_false, h1, h2, h3, h4, hval, or_self]
  norm_num
  split_ifs <;> simp_all <;> omega


/-- The decision for a complete add-beacon transaction whose CPID has no cached beacon. -/
theorem verify_of_not_cached (X : Externals) (g : Globals) (tx : CTransaction)
    (hadd : IsAddBeacon X tx) (hc : IsComplete X tx)
    (hval : (cachedEntry X g tx).value = "") :
    (VerifyBeaconContractTx X g tx).1 = true := by
  obtain ⟨hMT, hMA⟩ := hadd
  obtain ⟨h1, h2, h3, h4⟩ := hc
  simp only [messageType, messageAction, txElements, contractValue, claimedCPID,
    cachedEntry, noElements] at *
  simp [VerifyBeaconContractTx, hMT, hMA, h1, h2, h3, h4, hval]

/-- The decision for an add-beacon transaction with an empty element or CPID. -/
theorem verify_of_incomplete (X : Externals) (g : Globals) (tx : CTransaction)
    (hadd : IsAddBeacon X tx)
    (hinc : (txElements X tx).cpid = "" ∨ (txElements X tx).address = "" ∨
      (txElements X tx).publickey = "" ∨ claimedCPID X tx = "") :
    (VerifyBeaconContractTx X g tx).1 = false := by
  obtain ⟨hMT, hMA⟩ := hadd
  simp only [messageType, messageAction, txElements, contractValue, claimedCPID,
    noElements] at *
  simp [VerifyBeaconContractTx, hMT, hMA, hinc]

/-! ## `GetBeaconElements` -/

theorem GetBeaconElements_short (X : Externals) (sBeacon : String) (out : BeaconElements)
    (h : sBeacon = "" ∨ (X.split (c_str (X.DecodeBase64 sBeacon)) ";").length < 4) :
    GetBeaconElements X sBeacon out = out := by
  unfold GetBeaconElements
  rcases h with h | h
  · simp [h]
  · simp [h]

theorem GetBeaconElements_fields (X : Externals) (sBeacon : String) (out : BeaconElements)
    (hs : sBeacon ≠ "") (hF : ¬ (X.split (c_str (X.DecodeBase64 sBeacon)) ";").length < 4) :
    (X.split (c_str (X.DecodeBase64 sBeacon)) ";")[0]? =
        some (GetBeaconElements X sBeacon out).cpid ∧
      (X.split (c_str (X.DecodeBase64 sBeacon)) ";")[2]? =
        some (GetBeaconElements X sBeacon out).address ∧
      (X.split (c_str (X.DecodeBase64 sBeacon)) ";")[3]? =
        some (GetBeaconElements X sBeacon out).publickey := by
  unfold GetBeaconElements
  simp only [hs, if_false, hF, dite_false]
  refine ⟨?_, ?_, ?_⟩ <;> exact List.getElem?_eq_getElem _

/-- An empty input or an incomplete field list leaves one of the outputs empty. -/
theorem GetBeaconElements_incomplete (X : Externals) (sBeacon : String)
    (h : sBeacon = "" ∨ FieldsIncomplete (X.split (c_str (X.DecodeBase64 sBeacon)) ";")) :
    (GetBeaconElements X sBeacon noElements).cpid = "" ∨
      (GetBeaconElements X sBeacon noElements).address = "" ∨
      (GetBeaconElements X sBeacon noElements).publickey = "" := by
  by_cases hshort : sBeacon = "" ∨ (X.split (c_str (X.DecodeBase64 sBeacon)) ";").length < 4
  · rw [GetBeaconElements_short X sBeacon noElements hshort]
    exact Or.inl rfl
  · have hs : sBeacon ≠ "" := fun e => hshort (Or.inl e)
    have hF : ¬ (X.split (c_str (X.DecodeBase64 sBeacon)) ";").length < 4 :=
      fun e => hshort (Or.inr e)
    obtain ⟨h0, h2, h3⟩ := GetBeaconElements_fields X sBeacon noElements hs hF
    rcases h with h | h | h | h | h
    · exact absurd h hs
    · exact absurd h hF
    · rw [h0] at h; exact Or.inl (Option.some.inj h)
    · rw [h2] at h; exact Or.inr (Or.inl (Option.some.inj h))
    · rw [h3] at h; exact Or.inr (Or.inr (Option.some.inj h))

/-! ## The modelled `split` and C strings -/

theorem splitLoop_single_cons (d c : Char) (cs cur : List Char) :
    splitLoop [d] (c :: cs) cur 0 =
      if c = d then cur.reverse :: splitLoop [d] cs [] 0
      else splitLoop [d] cs (c :: cur) 0 := by
  by_cases h : c = d
  · subst h
    simp [splitLoop, List.isPrefixOf]
  · have h2 : ¬ d = c := fun e => h e.symm
    simp [splitLoop, List.isPrefixOf, h, h2]

/-- The first field of a split starts with the characters collected so far. -/
theorem splitLoop_head (d : Char) (t cur : List Char) :
    ∃ x more, splitLoop [d] t cur 0 = (cur.reverse ++ x) :: more := by
  induction t generalizing cur with
  | nil => exact ⟨[], [], by simp [splitLoop]⟩
  | cons c cs ih =>
    rw [splitLoop_single_cons]
    by_cases h : c = d
    · exact ⟨[], splitLoop [d] cs [] 0, by simp [h]⟩
    · obtain ⟨x, more, hx⟩ := ih (c :: cur)
      exact ⟨c :: x, more, by simp [h, hx]⟩

/-- Splitting a text that is continued: the fields before the last one stay, the last
one is continued. -/
theorem splitLoop_append (d : Char) (s t cur : List Char) :
    ∃ init l x more, splitLoop [d] s cur 0 = init ++ [l] ∧
      splitLoop [d] (s ++ t) cur 0 = init ++ (l ++ x) :: more := by
  induction s generalizing cur with
  | nil =>
    obtain ⟨x, more, hx⟩ := splitLoop_head d t cur
    exact ⟨[], cur.reverse, x, more, by simp [splitLoop], by simp [hx]⟩
  | cons c cs ih =>
    rw [List.cons_append, splitLoop_single_cons, splitLoop_single_cons]
    by_cases h : c = d
    · obtain ⟨init, l, x, more, h1, h2⟩ := ih []
      exact ⟨cur.reverse :: init, l, x, more, by simp [h, h1], by simp [h, h2]⟩
    · obtain ⟨init, l, x, more, h1, h2⟩ := ih (c :: cur)
      exact ⟨init, l, x, more, by simp [h, h1], by simp [h, h2]⟩

/-- A field list is incomplete when the list it continues to is. -/
theorem FieldsIncomplete_of_continued (init : List String) (l lx : String)
    (more : List String) (hl : lx = "" → l = "")
    (h : FieldsIncomplete (init ++ lx :: more)) : FieldsIncomplete (init ++ [l]) := by
  unfold FieldsIncomplete at *
  rcases init with _ | ⟨a, _ | ⟨b, _ | ⟨c, _ | ⟨e, rest⟩⟩⟩⟩
  · simp
  · simp
  · simp
  · simp at h ⊢
    rcases h with h | h | h | h
    · omega
    · exact Or.inl h
    · exact Or.inr (Or.inl h)
    · exact Or.inr (Or.inr (hl h))
  · simp at h ⊢
    rcases h with h | h
    · omega
    · exact Or.inr h

/-- With the modelled `split`, the fields of the C string of a text are incomplete when
the fields of the whole text are. -/
theorem FieldsIncomplete_c_str (s : String)
    (h : FieldsIncomplete (split s ";")) : FieldsIncomplete (split (c_str s) ";") := by
  have hsplit : s.data = (c_str s).data ++ s.data.dropWhile (fun c => c ≠ Char.ofNat 0) := by
    simp [c_str]
  obtain ⟨init, l, x, more, h1, h2⟩ :=
    splitLoop_append ';' (c_str s).data (s.data.dropWhile (fun c => c ≠ Char.ofNat 0)) []
  rw [← hsplit] at h2
  have e1 : split (c_str s) ";" = init.map String.mk ++ [String.mk l] := by
    simp [split, h1]
  have e2 : split s ";" = init.map String.mk ++ String.mk (l ++ x) :: more.map String.mk := by
    simp [split, h2]
  rw [e1]; rw [e2] at h
  refine FieldsIncomplete_of_continued _ _ _ _ ?_ h
  intro hx
  have : l ++ x = [] := by
    have := congrArg String.data hx
    simpa using this
  simp at this
  simp [this.1]

/-! ## The age windows of `VerifyBeaconContractTx` -/

/-- C1 (lockout window). A complete add-beacon transaction whose CPID has a non-empty
cached beacon is rejected when chain context exists and the age, lock time minus cached
timestamp, lies between 1 and 5*2592000, whatever public key it carries. -/
theorem lockout_window_rejects (X : Externals) (g : Globals) (tx : CTransaction)
    (b : CBlockIndex) (hadd : IsAddBeacon X tx) (hc : IsComplete X tx)
    (hctx : g.pindexBest = some b) (hval : (cachedEntry X g tx).value ≠ "")
    (hlo : 1 ≤ lockAge X g tx) (hhi : lockAge X g tx ≤ 5 * 2592000) :
    (VerifyBeaconContractTx X g tx).1 = false := by
  have hw : wrapInt64 (lockAge X g tx) = lockAge X g tx :=
    wrapInt64_of_range _ (by omega) (by omega)
  rw [verify_of_cached X g tx hadd hc hval (lockAge X g tx) (by rw [hctx]; exact hw)]
  rw [if_pos ⟨hlo, by omega⟩]

/-- The lockout at age one second: the cached beacon of "cpid1" dates from 1000, the
transaction carries another public key and lock time 1001. -/
theorem lockout_window_rejects_witness :
    IsAddBeacon stdExternals ⟨payloadB, 1001⟩ ∧ IsComplete stdExternals ⟨payloadB, 1001⟩ ∧
      (cachedEntry stdExternals node1 ⟨payloadB, 1001⟩).value ≠ "" ∧
      lockAge stdExternals node1 ⟨payloadB, 1001⟩ = 1 ∧
      (VerifyBeaconContractTx stdExternals node1 ⟨payloadB, 1001⟩).1 = false :=
  ⟨by decide, by decide, by decide, by decide,
    lockout_window_rejects stdExternals node1 ⟨payloadB, 1001⟩ ⟨2000, 10⟩
      (by decide) (by decide) rfl (by decide) (by decide) (by decide)⟩

/-- C2 (grace window). A complete add-beacon transaction whose CPID has a non-empty
cached beacon, with chain context and 5*2592000 < age <= 6*2592000, is accepted exactly
when its decoded public key equals the public key decoded from the cached value. -/
theorem grace_window_iff_same_key (X : Externals) (g : Globals) (tx : CTransaction)
    (b : CBlockIndex) (hadd : IsAddBeacon X tx) (hc : IsComplete X tx)
    (hctx : g.pindexBest = some b) (hval : (cachedEntry X g tx).value ≠ "")
    (hlo : 5 * 2592000 < lockAge X g tx) (hhi : lockAge X g tx ≤ 6 * 2592000) :
    (VerifyBeaconContractTx X g tx).1 = true ↔
      (txElements X tx).publickey = (cachedElements X g tx).publickey := by
  have hw : wrapInt64 (lockAge X g tx) = lockAge X g tx :=
    wrapInt64_of_range _ (by omega) (by omega)
  rw [verify_of_cached X g tx hadd hc hval (lockAge X g tx) (by rw [hctx]; exact hw)]
  rw [if_neg (by omega), if_pos ⟨by omega, by omega⟩]
  exact decide_eq_true_iff

/-- A same-key renewal in the grace window: age 5*2592000 + 100, the key of the cache. -/
theorem grace_window_iff_same_key_witness :
    lockAge stdExternals node1 ⟨payloadA, 12961100⟩ = 5 * 2592000 + 100 ∧
      (txElements stdExternals ⟨payloadA, 12961100⟩).publickey = "pkA" ∧
      ((VerifyBeaconContractTx stdExternals node1 ⟨payloadA, 12961100⟩).1 = true ↔
        (txElements stdExternals ⟨payloadA, 12961100⟩).publickey =
          (cachedElements stdExternals node1 ⟨payloadA, 12961100⟩).publickey) :=
  ⟨by decide, by decide,
    grace_window_iff_same_key stdExternals node1 ⟨payloadA, 12961100⟩ ⟨2000, 10⟩
      (by decide) (by decide) rfl (by decide) (by decide) (by decide)⟩

/-- C3 (outside both windows). A complete add-beacon transaction whose CPID has a
non-empty cached beacon is accepted when chain context exists and the age is at most 0
or more than 6*2592000, also with a public key other than the cached one. The lock time
is an `unsigned int` and the cached timestamp an `int64_t`. -/
theorem outside_windows_accepts (X : Externals) (g : Globals) (tx : CTransaction)
    (b : CBlockIndex) (hadd : IsAddBeacon X tx) (hc : IsComplete X tx)
    (hctx : g.pindexBest = some b) (hval : (cachedEntry X g tx).value ≠ "")
    (hlock : tx.nLockTime < 4294967296)
    (hts1 : -9223372036854775808 ≤ (cachedEntry X g tx).timestamp)
    (hts2 : (cachedEntry X g tx).timestamp < 9223372036854775808)
    (hage : lockAge X g tx ≤ 0 ∨ 6 * 2592000 < lockAge X g tx) :
    (VerifyBeaconContractTx X g tx).1 = true := by
  rw [verify_of_cached X g tx hadd hc hval (wrapInt64 (lockAge X g tx)) (by rw [hctx])]
  by_cases hov : lockAge X g tx < 9223372036854775808
  · have hw : wrapInt64 (lockAge X g tx) = lockAge X g tx :=
      wrapInt64_of_range _ (by simp only [lockAge] at *; omega) hov
    rw [hw, if_neg (by omega), if_neg (by omega)]
  · have hw : wrapInt64 (lockAge X g tx) < 0 :=
      wrapInt64_of_above _ (by omega) (by simp only [lockAge] at *; omega)
    rw [if_neg (by omega), if_neg (by omega)]

/-- A key change long after the grace window: lock time T + 6*2592000*60 + 1. -/
theorem outside_windows_accepts_witness :
    lockAge stdExternals node1 ⟨payloadB, 933121001⟩ = 6 * 2592000 * 60 + 1 ∧
      (txElements stdExternals ⟨payloadB, 933121001⟩).publickey ≠
        (cachedElements stdExternals node1 ⟨payloadB, 933121001⟩).publickey ∧
      (VerifyBeaconContractTx stdExternals node1 ⟨payloadB, 933121001⟩).1 = true :=
  ⟨by decide, by decide,
    outside_windows_accepts stdExternals node1 ⟨payloadB, 933121001⟩ ⟨2000, 10⟩
      (by decide) (by decide) rfl (by decide) (by decide) (by decide) (by decide)
      (by decide)⟩

/-- C4, as stated, fails: with lock time T + 5*2592000*60 + 100 the age is far beyond
6*2592000, and a transaction whose public key differs from the cached one is accepted. -/
theorem key_change_at_five_times_sixty_accepted :
    IsAddBeacon stdExternals ⟨payloadB, 777601100⟩ ∧
      IsComplete stdExternals ⟨payloadB, 777601100⟩ ∧
      node1.pindexBest = some ⟨2000, 10⟩ ∧
      cachedEntry stdExternals node1 ⟨payloadB, 777601100⟩ =
        ⟨"Y3BpZDE7aDthZGRyO3BrQQ==", 1000⟩ ∧
      cachedElements stdExternals node1 ⟨payloadB, 777601100⟩ = ⟨"cpid1", "addr", "pkA"⟩ ∧
      txElements stdExternals ⟨payloadB, 777601100⟩ = ⟨"cpid1", "addr", "pkB"⟩ ∧
      ((777601100 : Nat) : Int) = 1000 + 5 * 2592000 * 60 + 100 ∧
      (VerifyBeaconContractTx stdExternals node1 ⟨payloadB, 777601100⟩).1 = true := by
  decide

/-- C4, amended. For a complete add-beacon transaction whose CPID has a non-empty cached
beacon at timestamp T, with chain context: at lock time T + 5*2592000 + 100 it is
accepted exactly when its public key equals the cached one (a key change is rejected, a
same-key renewal is not), and at lock time T + 5*2592000*60 + 100 it is accepted
whatever its public key. -/
theorem just_past_five_months (X : Externals) (g : Globals) (tx : CTransaction)
    (b : CBlockIndex) (hadd : IsAddBeacon X tx) (hc : IsComplete X tx)
    (hctx : g.pindexBest = some b) (hval : (cachedEntry X g tx).value ≠ "") :
    ((tx.nLockTime : Int) = (cachedEntry X g tx).timestamp + 5 * 2592000 + 100 →
      ((VerifyBeaconContractTx X g tx).1 = true ↔
        (txElements X tx).publickey = (cachedElements X g tx).publickey)) ∧
    ((tx.nLockTime : Int) = (cachedEntry X g tx).timestamp + 5 * 2592000 * 60 + 100 →
      (VerifyBeaconContractTx X g tx).1 = true) := by
  constructor
  · intro hl
    have ha : lockAge X g tx = 12960100 := by simp only [lockAge]; omega
    have hw : wrapInt64 (lockAge X g tx) = lockAge X g tx :=
      wrapInt64_of_range _ (by omega) (by omega)
    rw [verify_of_cached X g tx hadd hc hval (lockAge X g tx) (by rw [hctx]; exact hw)]
    rw [if_neg (by omega), if_pos ⟨by omega, by omega⟩]
    exact decide_eq_true_iff
  · intro hl
    have ha : lockAge X g tx = 777600100 := by simp only [lockAge]; omega
    have hw : wrapInt64 (lockAge X g tx) = lockAge X g tx :=
      wrapInt64_of_range _ (by omega) (by omega)
    rw [verify_of_cached X g tx hadd hc hval (lockAge X g tx) (by rw [hctx]; exact hw)]
    rw [if_neg (by omega), if_neg (by omega)]

/-- A key change 100 seconds past five months: rejected. -/
theorem just_past_five_months_witness :
    ((12961100 : Nat) : Int) =
        (cachedEntry stdExternals node1 ⟨payloadB, 12961100⟩).timestamp + 5 * 2592000 + 100 ∧
      (txElements stdExternals ⟨payloadB, 12961100⟩).publickey ≠
        (cachedElements stdExternals node1 ⟨payloadB, 12961100⟩).publickey ∧
      (VerifyBeaconContractTx stdExternals node1 ⟨payloadB, 12961100⟩).1 = false :=
  ⟨by decide, by decide, by
    have h := (just_past_five_months stdExternals node1 ⟨payloadB, 12961100⟩ ⟨2000, 10⟩
      (by decide) (by decide) rfl (by decide)).1 (by decide)
    cases hv : (VerifyBeaconContractTx stdExternals node1 ⟨payloadB, 12961100⟩).1
    · rfl
    · exact absurd (h.1 hv) (by decide)⟩

/-- C5 (first registration). A complete add-beacon transaction is accepted when the cache
entry of the claimed CPID has an empty value, for every lock time, every cached
timestamp, and with or without chain context. -/
theorem first_registration_accepted (X : Externals) (g : Globals) (tx : CTransaction)
    (hadd : IsAddBeacon X tx) (hc : IsComplete X tx)
    (hval : (cachedEntry X g tx).value = "") :
    (VerifyBeaconContractTx X g tx).1 = true :=
  verify_of_not_cached X g tx hadd hc hval

/-- A first beacon for "cpid2", which the cache does not hold. -/
theorem first_registration_accepted_witness :
    (cachedEntry stdExternals node1 ⟨payloadNew, 1001⟩).value = "" ∧
      txElements stdExternals ⟨payloadNew, 1001⟩ = ⟨"cpid2", "addr", "pkC"⟩ ∧
      (VerifyBeaconContractTx stdExternals node1 ⟨payloadNew, 1001⟩).1 = true :=
  ⟨by decide, by decide,
    first_registration_accepted stdExternals node1 ⟨payloadNew, 1001⟩
      (by decide) (by decide) (by decide)⟩

/-- C7 (missing chain context). Without a best block every complete add-beacon
transaction is accepted, whatever the cached value, cached timestamp, lock time and
public key are. -/
theorem no_chain_context_accepts (X : Externals) (g : Globals) (tx : CTransaction)
    (hadd : IsAddBeacon X tx) (hc : IsComplete X tx) (hctx : g.pindexBest = none) :
    (VerifyBeaconContractTx X g tx).1 = true := by
  by_cases hval : (cachedEntry X g tx).value = ""
  · exact verify_of_not_cached X g tx hadd hc hval
  · rw [verify_of_cached X g tx hadd hc hval 0 (by rw [hctx])]
    rw [if_neg (by omega), if_neg (by omega)]

/-- A key change one second after the cached beacon, on a node without a best block:
accepted, while `node1` rejects it. -/
theorem no_chain_context_accepts_witness :
    node0.pindexBest = none ∧
      (cachedEntry stdExternals node0 ⟨payloadB, 1001⟩).value ≠ "" ∧
      lockAge stdExternals node0 ⟨payloadB, 1001⟩ = 1 ∧
      (VerifyBeaconContractTx stdExternals node0 ⟨payloadB, 1001⟩).1 = true :=
  ⟨rfl, by decide, by decide,
    no_chain_context_accepts stdExternals node0 ⟨payloadB, 1001⟩ (by decide) (by decide) rfl⟩

/-- C8 (jurisdiction). A transaction whose message type is not "beacon", or whose
message action is not "A", is accepted, whatever its contract value and claimed CPID and
whatever the cache and chain state. -/
theorem not_add_beacon_accepts (X : Externals) (g : Globals) (tx : CTransaction)
    (h : messageType X tx ≠ "beacon" ∨ messageAction X tx ≠ "A") :
    (VerifyBeaconContractTx X g tx).1 = true := by
  simp only [messageType, messageAction] at h
  unfold VerifyBeaconContractTx
  by_cases hMT : X.ExtractXML tx.hashBoinc "<MT>" "</MT>" = "beacon"
  · have hMA : X.ExtractXML tx.hashBoinc "<MA>" "</MA>" ≠ "A" := by
      rcases h with h | h
      · exact absurd hMT h
      · exact h
    simp [hMT, hMA]
  · simp [hMT]

/-- A beacon deletion with an empty contract value and an empty CPID. -/
theorem not_add_beacon_accepts_witness :
    messageType stdExternals ⟨payloadDelete, 1001⟩ = "beacon" ∧
      messageAction stdExternals ⟨payloadDelete, 1001⟩ = "D" ∧
      contractValue stdExternals ⟨payloadDelete, 1001⟩ = "" ∧
      claimedCPID stdExternals ⟨payloadDelete, 1001⟩ = "" ∧
      (VerifyBeaconContractTx stdExternals node1 ⟨payloadDelete, 1001⟩).1 = true :=
  ⟨by decide, by decide, by decide, by decide,
    not_add_beacon_accepts stdExternals node1 ⟨payloadDelete, 1001⟩ (Or.inr (by decide))⟩

/-! ## Incomplete contracts and the decoder -/

/-- C6 (incomplete contract). An add-beacon transaction is rejected when the claimed CPID
is empty, or the contract value is empty, or the fields of its decoding are incomplete
(fewer than 4, or an empty field 0, 2 or 3), whatever the cache, the lock time and the
chain context are. The fields are those of the C string the validator splits, for every
`split`, or those of the whole decoding, for the modelled `split`; `ExtractXML` and
`DecodeBase64` are arbitrary. -/
theorem incomplete_contract_rejected (X : Externals) (g : Globals) (tx : CTransaction)
    (hadd : IsAddBeacon X tx)
    (hinc : claimedCPID X tx = "" ∨ contractValue X tx = "" ∨
      FieldsIncomplete (X.split (c_str (X.DecodeBase64 (contractValue X tx))) ";") ∨
      (X.split = split ∧
        FieldsIncomplete (split (X.DecodeBase64 (contractValue X tx)) ";"))) :
    (VerifyBeaconContractTx X g tx).1 = false := by
  apply verify_of_incomplete X g tx hadd
  have key : contractValue X tx = "" ∨
      FieldsIncomplete (X.split (c_str (X.DecodeBase64 (contractValue X tx))) ";") →
      (txElements X tx).cpid = "" ∨ (txElements X tx).address = "" ∨
        (txElements X tx).publickey = "" ∨ claimedCPID X tx = "" := by
    intro h
    rcases GetBeaconElements_incomplete X (contractValue X tx) h with t | t | t
    · exact Or.inl t
    · exact Or.inr (Or.inl t)
    · exact Or.inr (Or.inr (Or.inl t))
  rcases hinc with h | h | h | ⟨hsplit, h⟩
  · exact Or.inr (Or.inr (Or.inr h))
  · exact key (Or.inl h)
  · exact key (Or.inr h)
  · exact key (Or.inr (by rw [hsplit]; exact FieldsIncomplete_c_str _ h))

/-- A contract value of three fields, for a CPID whose cached beacon is long past the
grace window. -/
theorem incomplete_contract_rejected_witness :
    split (DecodeBase64 (contractValue stdExternals ⟨payloadShort, 933121001⟩)) ";" =
        ["a", "b", "c"] ∧
      (VerifyBeaconContractTx stdExternals node1 ⟨payloadShort, 933121001⟩).1 = false :=
  ⟨by decide,
    incomplete_contract_rejected stdExternals node1 ⟨payloadShort, 933121001⟩
      (by decide) (Or.inr (Or.inr (Or.inr ⟨rfl, by decide⟩)))⟩

theorem c_str_eq_self_iff (s : String) : c_str s = s ↔ Char.ofNat 0 ∉ s.data := by
  constructor
  · intro h hmem
    have hd : (c_str s).data = s.data := by rw [h]
    simp only [c_str] at hd
    rw [List.takeWhile_eq_self_iff] at hd
    have := hd _ hmem
    simp at this
  · intro h
    have : s.data.takeWhile (fun c => c ≠ Char.ofNat 0) = s.data := by
      rw [List.takeWhile_eq_self_iff]
      intro c hc
      have : c ≠ Char.ofNat 0 := fun e => h (e ▸ hc)
      simpa using this
    simp only [c_str, this]

/-- C9, as stated, fails on a decoding with a NUL byte. "YTtiADtjO2Q=" decodes to
"a;b", NUL, ";c;d", which splits into 4 fields, yet the outputs stay empty;
"YTtiO2M7ZABl" decodes to "a;b;c;d", NUL, "e", whose field 3 has three bytes, yet the
public key is "d". -/
theorem GetBeaconElements_cuts_at_nul :
    split (DecodeBase64 "YTtiADtjO2Q=") ";" = ["a", "b\x00", "c", "d"] ∧
      GetBeaconElements stdExternals "YTtiADtjO2Q=" noElements = noElements ∧
      split (DecodeBase64 "YTtiO2M7ZABl") ";" = ["a", "b", "c", "d\x00e"] ∧
      GetBeaconElements stdExternals "YTtiO2M7ZABl" noElements = ⟨"a", "c", "d"⟩ := by
  decide

/-- C9, amended. Called with empty outputs, `GetBeaconElements` leaves them empty when
the input is empty or the C string of its base64 decoding (the decoding up to its first
NUL byte) splits on ";" into fewer than 4 fields; otherwise the outputs are fields 0, 2
and 3 of that split. The C string is the whole decoding exactly when the decoding has no
NUL byte. The function is total. -/
theorem GetBeaconElements_decode (X : Externals) (sBeacon : String) :
    GetBeaconElements X sBeacon noElements =
        (if sBeacon = "" ∨ (X.split (c_str (X.DecodeBase64 sBeacon)) ";").length < 4 then
          noElements
        else
          { cpid := (X.split (c_str (X.DecodeBase64 sBeacon)) ";").getD 0 "",
            address := (X.split (c_str (X.DecodeBase64 sBeacon)) ";").getD 2 "",
            publickey := (X.split (c_str (X.DecodeBase64 sBeacon)) ";").getD 3 "" }) ∧
      (c_str (X.DecodeBase64 sBeacon) = X.DecodeBase64 sBeacon ↔
        Char.ofNat 0 ∉ (X.DecodeBase64 sBeacon).data) := by
  refine ⟨?_, c_str_eq_self_iff _⟩
  by_cases hshort : sBeacon = "" ∨ (X.split (c_str (X.DecodeBase64 sBeacon)) ";").length < 4
  · rw [if_pos hshort, GetBeaconElements_short X sBeacon noElements hshort]
  · rw [if_neg hshort]
    have hs : sBeacon ≠ "" := fun e => hshort (Or.inl e)
    have hF : ¬ (X.split (c_str (X.DecodeBase64 sBeacon)) ";").length < 4 :=
      fun e => hshort (Or.inr e)
    obtain ⟨h0, h2, h3⟩ := GetBeaconElements_fields X sBeacon noElements hs hF
    simp only [List.getD_eq_getElem?_getD, h0, h2, h3, Option.getD_some]

/-! ## The round trip through the modelled codec -/

theorem base64Value_base64Char (n : Nat) (h : n < 64) :
    base64Value (base64Char n) = some n := by
  interval_cases n <;> rfl

theorem base64Value_pad : base64Value '=' = none := by decide

/-- Standard base64 decoding undoes standard base64 encoding, on lists of bytes. -/
theorem base64Bytes_base64Encode :
    ∀ bs : List Nat, (∀ b ∈ bs, b < 256) →
      base64Bytes (base64Sextets (base64Encode bs)) = bs
  | [], _ => by simp [base64Encode, base64Sextets, base64Bytes]
  | [x], h => by
    have hx : x < 256 := h x (by simp)
    simp only [base64Encode, base64Sextets, base64Value_pad,
      base64Value_base64Char (x / 4) (by omega),
      base64Value_base64Char (x % 4 * 16) (by omega), base64Bytes]
    simp only [List.cons.injEq, and_true]
    omega
  | [x, y], h => by
    have hx : x < 256 := h x (by simp)
    have hy : y < 256 := h y (by simp)
    simp only [base64Encode, base64Sextets, base64Value_pad,
      base64Value_base64Char (x / 4) (by omega),
      base64Value_base64Char (x % 4 * 16 + y / 16) (by omega),
      base64Value_base64Char (y % 16 * 4) (by omega), base64Bytes]
    simp only [List.cons.injEq, and_true]
    omega
  | x :: y :: z :: rest, h => by
    have hx : x < 256 := h x (by simp)
    have hy : y < 256 := h y (by simp)
    have hz : z < 256 := h z (by simp)
    have ih := base64Bytes_base64Encode rest (fun b hb => h b (by simp [hb]))
    simp only [base64Encode, base64Sextets,
      base64Value_base64Char (x / 4) (by omega),
      base64Value_base64Char (x % 4 * 16 + y / 16) (by omega),
      base64Value_base64Char (y % 16 * 4 + z / 64) (by omega),
      base64Value_base64Char (z % 64) (by omega), base64Bytes, ih]
    simp only [List.cons.injEq, and_true]
    omega

theorem DecodeBase64_EncodeBase64 (s : String) (h : IsByteString s) :
    DecodeBase64 (EncodeBase64 s) = s := by
  have hb : ∀ b ∈ s.data.map Char.toNat, b < 256 := by
    intro b hb
    obtain ⟨c, hc, rfl⟩ := List.mem_map.1 hb
    exact h c hc
  have hm : (s.data.map Char.toNat).map Char.ofNat = s.data := by
    rw [List.map_map]
    conv_rhs => rw [← List.map_id s.data]
    apply List.map_congr_left
    intro c _
    simp [Char.ofNat_toNat]
  simp only [DecodeBase64, EncodeBase64, base64Bytes_base64Encode _ hb, hm]

theorem base64Encode_ne_nil : ∀ bs : List Nat, bs ≠ [] → base64Encode bs ≠ []
  | [], h => absurd rfl h
  | [_], _ => by simp [base64Encode]
  | [_, _], _ => by simp [base64Encode]
  | _ :: _ :: _ :: _, _ => by simp [base64Encode]

/-- A field without the delimiter, followed by the delimiter, is one field. -/
theorem splitLoop_field (d : Char) (f : List Char) (hf : d ∉ f) (rest cur : List Char) :
    splitLoop [d] (f ++ d :: rest) cur 0 = (cur.reverse ++ f) :: splitLoop [d] rest [] 0 := by
  induction f generalizing cur with
  | nil => simp [splitLoop_single_cons]
  | cons c cs ih =>
    have hc : c ≠ d := fun e => hf (by simp [e])
    have hcs : d ∉ cs := fun e => hf (by simp [e])
    rw [List.cons_append, splitLoop_single_cons, if_neg hc, ih hcs]
    simp

/-- A text without the delimiter is one field. -/
theorem splitLoop_last (d : Char) (f : List Char) (hf : d ∉ f) (cur : List Char) :
    splitLoop [d] f cur 0 = [cur.reverse ++ f] := by
  induction f generalizing cur with
  | nil => simp [splitLoop]
  | cons c cs ih =>
    have hc : c ≠ d := fun e => hf (by simp [e])
    have hcs : d ∉ cs := fun e => hf (by simp [e])
    rw [splitLoop_single_cons, if_neg hc, ih hcs]
    simp

/-- The modelled `split` takes a record of four fields without ";" apart again. -/
theorem split_record (a b c e : String) (ha : ';' ∉ a.data) (hb : ';' ∉ b.data)
    (hc : ';' ∉ c.data) (he : ';' ∉ e.data) :
    split (a ++ ";" ++ b ++ ";" ++ c ++ ";" ++ e) ";" = [a, b, c, e] := by
  have hd : (a ++ ";" ++ b ++ ";" ++ c ++ ";" ++ e).data =
      a.data ++ ';' :: (b.data ++ ';' :: (c.data ++ ';' :: e.data)) := by
    simp [String.data_append]
  have hsemi : (";" : String).data = [';'] := rfl
  simp only [split, hd, hsemi, splitLoop_field ';' _ ha, splitLoop_field ';' _ hb,
    splitLoop_field ';' _ hc, splitLoop_last ';' _ he]
  simp

/-- C10 (round trip). For byte strings cpid, hash_rand, address and public_key without
";" and without a NUL byte, `GetBeaconElements` applied to the base64 encoding of
cpid;hash_rand;address;public_key yields (cpid, address, public_key), and encoding the
decoded fields again with the same hash_rand gives the original record. -/
theorem decode_encode_round_trip (X : Externals) (cpid hash_rand address public_key : String)
    (hdecode : X.DecodeBase64 = DecodeBase64) (hsplit : X.split = split)
    (hbytes : ∀ s ∈ [cpid, hash_rand, address, public_key], IsByteString s)
    (hsemi : ∀ s ∈ [cpid, hash_rand, address, public_key], ';' ∉ s.data)
    (hnul : ∀ s ∈ [cpid, hash_rand, address, public_key], Char.ofNat 0 ∉ s.data) :
    GetBeaconElements X (encodeBeacon cpid hash_rand address public_key) noElements =
        ⟨cpid, address, public_key⟩ ∧
      encodeBeacon
          (GetBeaconElements X (encodeBeacon cpid hash_rand address public_key) noElements).cpid
          hash_rand
          (GetBeaconElements X (encodeBeacon cpid hash_rand address public_key) noElements).address
          (GetBeaconElements X (encodeBeacon cpid hash_rand address public_key) noElements).publickey =
        encodeBeacon cpid hash_rand address public_key := by
  have hrec : GetBeaconElements X (encodeBeacon cpid hash_rand address public_key) noElements =
      ⟨cpid, address, public_key⟩ := by
    have hB : IsByteString (cpid ++ ";" ++ hash_rand ++ ";" ++ address ++ ";" ++ public_key) := by
      intro c hc
      simp only [String.data_append, List.mem_append] at hc
      have h1 := hbytes cpid (by simp)
      have h2 := hbytes hash_rand (by simp)
      have h3 := hbytes address (by simp)
      have h4 := hbytes public_key (by simp)
      have hs : ∀ c ∈ (";" : String).data, c.toNat < 256 := by decide
      rcases hc with ((((((hc | hc) | hc) | hc) | hc) | hc) | hc)
      · exact h1 c hc
      · exact hs c hc
      · exact h2 c hc
      · exact hs c hc
      · exact h3 c hc
      · exact hs c hc
      · exact h4 c hc
    have hN : Char.ofNat 0 ∉
        (cpid ++ ";" ++ hash_rand ++ ";" ++ address ++ ";" ++ public_key).data := by
      intro hc
      simp only [String.data_append, List.mem_append] at hc
      have hs : Char.ofNat 0 ∉ (";" : String).data := by decide
      rcases hc with ((((((hc | hc) | hc) | hc) | hc) | hc) | hc)
      · exact hnul cpid (by simp) hc
      · exact hs hc
      · exact hnul hash_rand (by simp) hc
      · exact hs hc
      · exact hnul address (by simp) hc
      · exact hs hc
      · exact hnul public_key (by simp) hc
    have hne : encodeBeacon cpid hash_rand address public_key ≠ "" := by
      intro h
      have hd := congrArg String.data h
      simp only [encodeBeacon, EncodeBase64] at hd
      refine base64Encode_ne_nil _ ?_ hd
      simp [String.data_append]
    have hF : X.split (c_str (X.DecodeBase64 (encodeBeacon cpid hash_rand address public_key))) ";"
        = [cpid, hash_rand, address, public_key] := by
      rw [hdecode, hsplit, encodeBeacon, DecodeBase64_EncodeBase64 _ hB,
        (c_str_eq_self_iff _).2 hN]
      exact split_record _ _ _ _ (hsemi cpid (by simp)) (hsemi hash_rand (by simp))
        (hsemi address (by simp)) (hsemi public_key (by simp))
    obtain ⟨h0, h2, h3⟩ := GetBeaconElements_fields X _ noElements hne (by rw [hF]; simp)
    rw [hF] at h0 h2 h3
    simp only [List.getElem?_cons_zero, List.getElem?_cons_succ, Option.some.injEq] at h0 h2 h3
    cases hr : GetBeaconElements X (encodeBeacon cpid hash_rand address public_key) noElements
    rw [hr] at h0 h2 h3
    simp only at h0 h2 h3
    rw [h0, h2, h3]
  exact ⟨hrec, by rw [hrec]⟩

/-- The record "cpid1;h;addr;pkA" of the cache in `cache1`. -/
theorem decode_encode_round_trip_witness :
    encodeBeacon "cpid1" "h" "addr" "pkA" = "Y3BpZDE7aDthZGRyO3BrQQ==" ∧
      GetBeaconElements stdExternals (encodeBeacon "cpid1" "h" "addr" "pkA") noElements =
        ⟨"cpid1", "addr", "pkA"⟩ :=
  ⟨by decide,
    (decode_encode_round_trip stdExternals "cpid1" "h" "addr" "pkA" rfl rfl
      (by decide) (by decide) (by decide)).1⟩

/-! ## Freshness queries -/

theorem RetrieveBeaconValueWithMaxAge_none (g : Globals) (cpid : String) (m : Int)
    (hm : 0 ≤ m) (hctx : g.pindexBest = none) :
    RetrieveBeaconValueWithMaxAge g cpid m = (g.ReadCache "beacon" cpid).value := by
  simp only [RetrieveBeaconValueWithMaxAge, hctx]
  rw [if_neg (by omega)]

theorem RetrieveBeaconValueWithMaxAge_some (g : Globals) (cpid : String) (m : Int)
    (b : CBlockIndex) (hctx : g.pindexBest = some b) :
    RetrieveBeaconValueWithMaxAge g cpid m =
      if m < wrapInt64 (blockAge g cpid b) then "" else (g.ReadCache "beacon" cpid).value := by
  simp only [RetrieveBeaconValueWithMaxAge, hctx, blockAge, gt_iff_lt]

/-- The two decoders agree: `GetBeaconPublicKey` returns the public key that
`GetBeaconElements` decodes from the value `RetrieveBeaconValueWithMaxAge` hands over. -/
theorem GetBeaconPublicKey_eq_elements (X : Externals) (g : Globals) (cpid : String)
    (adv : Bool) :
    GetBeaconPublicKey X g cpid adv =
      (GetBeaconElements X
        (RetrieveBeaconValueWithMaxAge g cpid (if adv then 12960000 else 15552000))
        noElements).publickey := by
  have hm : (60 * 24 * 30 * (if adv = true then (5 : Int) else 6) * 60) =
      (if adv then 12960000 else 15552000) := by
    cases adv <;> simp
  simp only [GetBeaconPublicKey, GetBeaconElements, hm, noElements]
  split_ifs <;> rfl

theorem GetBeaconElements_publickey (X : Externals) (sBeacon : String) :
    (GetBeaconElements X sBeacon noElements).publickey =
      if sBeacon = "" ∨ (X.split (c_str (X.DecodeBase64 sBeacon)) ";").length < 4 then ""
      else (X.split (c_str (X.DecodeBase64 sBeacon)) ";").getD 3 "" := by
  by_cases hshort : sBeacon = "" ∨ (X.split (c_str (X.DecodeBase64 sBeacon)) ";").length < 4
  · rw [if_pos hshort, GetBeaconElements_short X sBeacon noElements hshort]
  · rw [if_neg hshort]
    obtain ⟨_, _, h3⟩ := GetBeaconElements_fields X sBeacon noElements
      (fun e => hshort (Or.inl e)) (fun e => hshort (Or.inr e))
    simp only [List.getD_eq_getElem?_getD, h3, Option.getD_some]

/-- C11, as stated, fails on a cached value whose decoding has a NUL byte. On `node2` the
beacons of "cpidN" and "cpidM" are 4000 seconds old, so fresh. The value of "cpidN"
decodes to "a;b;c;d", NUL, "e", whose field 3 has three bytes, yet the key returned is
"d"; the value of "cpidM" decodes to "a;b", NUL, ";c;d", which has 4 fields, yet the key
returned is empty. -/
theorem GetBeaconPublicKey_cuts_at_nul :
    node2.pindexBest = some ⟨5000, 77⟩ ∧
      node2.ReadCache "beacon" "cpidN" = ⟨"YTtiO2M7ZABl", 1000⟩ ∧
      blockAge node2 "cpidN" ⟨5000, 77⟩ = 4000 ∧
      split (DecodeBase64 "YTtiO2M7ZABl") ";" = ["a", "b", "c", "d\x00e"] ∧
      GetBeaconPublicKey stdExternals node2 "cpidN" true = "d" ∧
      GetBeaconPublicKey stdExternals node2 "cpidN" false = "d" ∧
      node2.ReadCache "beacon" "cpidM" = ⟨"YTtiADtjO2Q=", 1000⟩ ∧
      split (DecodeBase64 "YTtiADtjO2Q=") ";" = ["a", "b\x00", "c", "d"] ∧
      GetBeaconPublicKey stdExternals node2 "cpidM" false = "" := by
  decide

/-- C11, amended. `GetBeaconPublicKey cpid adv` uses the bound 12960000 when `adv` is true
and 15552000 when it is false. With chain context and an age above the bound it returns
the empty string, whatever the cache holds. Otherwise (age at most the bound, or no
chain context) it returns field 3 of the split on ";" of the C string of the base64
decoding of the cached value (the decoding up to its first NUL byte), or the empty
string when the cached value is empty or that split has fewer than 4 fields. The age is
the difference best block time minus cached timestamp as computed in `int64_t`, which is
the integer difference whenever that lies in the 64-bit range. -/
theorem GetBeaconPublicKey_freshness (X : Externals) (g : Globals) (cpid : String)
    (adv : Bool) :
    (∀ b, g.pindexBest = some b →
        (if adv then 12960000 else 15552000) < wrapInt64 (blockAge g cpid b) →
        GetBeaconPublicKey X g cpid adv = "") ∧
      ((g.pindexBest = none ∨ ∃ b, g.pindexBest = some b ∧
          wrapInt64 (blockAge g cpid b) ≤ (if adv then 12960000 else 15552000)) →
        GetBeaconPublicKey X g cpid adv =
          if (g.ReadCache "beacon" cpid).value = "" ∨ (cachedFields X g cpid).length < 4
          then "" else (cachedFields X g cpid).getD 3 "") ∧
      (∀ b, -9223372036854775808 ≤ blockAge g cpid b →
        blockAge g cpid b < 9223372036854775808 →
        wrapInt64 (blockAge g cpid b) = blockAge g cpid b) := by
  refine ⟨?_, ?_, fun b h1 h2 => wrapInt64_of_range _ h1 h2⟩
  · intro b hctx hstale
    rw [GetBeaconPublicKey_eq_elements, RetrieveBeaconValueWithMaxAge_some g cpid _ b hctx,
      if_pos hstale]
    rfl
  · intro h
    have hv : RetrieveBeaconValueWithMaxAge g cpid (if adv then 12960000 else 15552000) =
        (g.ReadCache "beacon" cpid).value := by
      rcases h with hctx | ⟨b, hctx, hfresh⟩
      · exact RetrieveBeaconValueWithMaxAge_none g cpid _ (by cases adv <;> simp) hctx
      · rw [RetrieveBeaconValueWithMaxAge_some g cpid _ b hctx, if_neg (by omega)]
    rw [GetBeaconPublicKey_eq_elements, hv, GetBeaconElements_publickey]

/-- The beacon of "cpid1" seen from a best block 5*2592000 + 100 seconds younger: stale
for an advertiser, fresh otherwise. -/
theorem GetBeaconPublicKey_freshness_witness :
    blockAge nodeLate "cpid1" ⟨12961100, 20⟩ = 12960100 ∧
      GetBeaconPublicKey stdExternals nodeLate "cpid1" true = "" ∧
      GetBeaconPublicKey stdExternals nodeLate "cpid1" false =
        (if (nodeLate.ReadCache "beacon" "cpid1").value = "" ∨
            (cachedFields stdExternals nodeLate "cpid1").length < 4
          then "" else (cachedFields stdExternals nodeLate "cpid1").getD 3 "") ∧
      (cachedFields stdExternals nodeLate "cpid1").getD 3 "" = "pkA" :=
  ⟨by decide,
    (GetBeaconPublicKey_freshness stdExternals nodeLate "cpid1" true).1 ⟨12961100, 20⟩ rfl
      (by decide),
    (GetBeaconPublicKey_freshness stdExternals nodeLate "cpid1" false).2.1
      (Or.inr ⟨⟨12961100, 20⟩, rfl, by decide⟩),
    by decide⟩

/-- C12 (asymmetric window). For a CPID whose cached value decodes to a non-empty public
key, with chain context and 5*2592000 < best block time - cached timestamp <= 6*2592000,
`GetBeaconPublicKey cpid true` is empty, `GetBeaconPublicKey cpid false` is the cached
public key, and `HasActiveBeacon cpid` is true. -/
theorem advertising_window_shorter (X : Externals) (g : Globals) (cpid : String)
    (b : CBlockIndex) (hctx : g.pindexBest = some b)
    (hpk : (GetBeaconElements X (g.ReadCache "beacon" cpid).value noElements).publickey ≠ "")
    (hlo : 5 * 2592000 < blockAge g cpid b) (hhi : blockAge g cpid b ≤ 6 * 2592000) :
    GetBeaconPublicKey X g cpid true = "" ∧
      GetBeaconPublicKey X g cpid false =
        (GetBeaconElements X (g.ReadCache "beacon" cpid).value noElements).publickey ∧
      HasActiveBeacon X g cpid = true := by
  have hw : wrapInt64 (blockAge g cpid b) = blockAge g cpid b :=
    wrapInt64_of_range _ (by omega) (by omega)
  have hfalse : GetBeaconPublicKey X g cpid false =
      (GetBeaconElements X (g.ReadCache "beacon" cpid).value noElements).publickey := by
    rw [GetBeaconPublicKey_eq_elements, RetrieveBeaconValueWithMaxAge_some g cpid _ b hctx, hw]
    simp only [Bool.false_eq_true, if_false]
    rw [if_neg (by omega)]
  refine ⟨?_, hfalse, ?_⟩
  · rw [GetBeaconPublicKey_eq_elements, RetrieveBeaconValueWithMaxAge_some g cpid _ b hctx, hw]
    simp only [if_true]
    rw [if_pos (by omega)]
    rfl
  · simp only [HasActiveBeacon, hfalse, hpk, decide_False, beq_self_eq_true]

/-- The beacon of "cpid1" when the best block is 5*2592000 + 100 seconds younger. -/
theorem advertising_window_shorter_witness :
    blockAge nodeLate "cpid1" ⟨12961100, 20⟩ = 5 * 2592000 + 100 ∧
      GetBeaconPublicKey stdExternals nodeLate "cpid1" true = "" ∧
      GetBeaconPublicKey stdExternals nodeLate "cpid1" false = "pkA" ∧
      HasActiveBeacon stdExternals nodeLate "cpid1" = true :=
  ⟨by decide,
    (advertising_window_shorter stdExternals nodeLate "cpid1" ⟨12961100, 20⟩ rfl
      (by decide) (by decide) (by decide)).1,
    by decide, by decide⟩

/-! ## The key manager -/

/-- C13 (key reuse versus regeneration). `GenerateBeaconKeys` returns true on every path
and leaves the key store as it was. When both stored values are non-empty, signing the
challenge succeeds and the signature verifies, the outputs are the stored pair; in every
other case they are the hex encodings of the newly made key pair. -/
theorem GenerateBeaconKeys_reuse_or_generate {σ : Type} (K : KeyServices σ) (g : Globals)
    (st : σ) (draws : KeyDraws) (cpid : String) :
    (GenerateBeaconKeys K g st draws cpid).result = true ∧
      (GenerateBeaconKeys K g st draws cpid).store = st ∧
      (StoredKeysValid K g st draws cpid →
        (GenerateBeaconKeys K g st draws cpid).sOutPubKey =
            GetStoredBeaconPublicKey K g st cpid ∧
          (GenerateBeaconKeys K g st draws cpid).sOutPrivKey =
            GetStoredBeaconPrivateKey K g st cpid) ∧
      (¬ StoredKeysValid K g st draws cpid →
        (GenerateBeaconKeys K g st draws cpid).sOutPubKey = K.HexStr draws.vchPubKey ∧
          (GenerateBeaconKeys K g st draws cpid).sOutPrivKey =
            K.HexStr draws.vchPrivKey) := by
  simp only [StoredKeysValid, KeyProbeSucceeds, GetStoredBeaconPrivateKey,
    GetStoredBeaconPublicKey, GenerateBeaconKeys]
  split_ifs <;> simp_all

/-- A stored pair that passes the probe is returned; one that fails it is replaced. -/
theorem GenerateBeaconKeys_reuse_or_generate_witness :
    StoredKeysValid demoKeys node1 keyFile1 draws1 "cpid1" ∧
      GetStoredBeaconPublicKey demoKeys node1 keyFile1 "cpid1" = "goodpub" ∧
      (GenerateBeaconKeys demoKeys node1 keyFile1 draws1 "cpid1").sOutPubKey =
        GetStoredBeaconPublicKey demoKeys node1 keyFile1 "cpid1" ∧
      ¬ StoredKeysValid demoKeys node1 keyFile2 draws1 "cpid1" ∧
      GetStoredBeaconPublicKey demoKeys node1 keyFile2 "cpid1" = "stalepub" ∧
      (GenerateBeaconKeys demoKeys node1 keyFile2 draws1 "cpid1").sOutPubKey = "hex:newpub" :=
  ⟨by decide, by decide,
    ((GenerateBeaconKeys_reuse_or_generate demoKeys node1 keyFile1 draws1 "cpid1").2.2.1
      (by decide)).1,
    by decide, by decide,
    ((GenerateBeaconKeys_reuse_or_generate demoKeys node1 keyFile2 draws1 "cpid1").2.2.2
      (by decide)).1⟩

theorem String_append_left_cancel (a b c : String) : a ++ b = a ++ c ↔ b = c := by
  constructor
  · intro h
    have hd := congrArg String.data h
    simp only [String.data_append, List.append_cancel_left_eq] at hd
    exact String.ext hd
  · intro h
    rw [h]

theorem GetNetSuffix_testnet (g : Globals) (h : g.fTestNet = true) :
    GetNetSuffix g = "testnet" := by
  simp [GetNetSuffix, h]

theorem GetNetSuffix_mainnet (g : Globals) (h : g.fTestNet = false) :
    GetNetSuffix g = "" := by
  simp [GetNetSuffix, h]

/-- C14, as stated, fails: the test-net names of the CPID "abc" are the main-net names of
the CPID "abctestnet". -/
theorem netsuffix_names_collide :
    node2.fTestNet = true ∧ node1.fTestNet = false ∧
      privateKeyName node2 "abc" = privateKeyName node1 "abctestnet" ∧
      publicKeyName node2 "abc" = publicKeyName node1 "abctestnet" := by
  decide

/-- C14, amended. The storage names built for a CPID c1 in test-net mode equal the
storage names built for a CPID c2 in main-net mode exactly when c2 is c1 followed by
"testnet". So they differ for c1 = c2 and for any two CPIDs of the same length. -/
theorem netsuffix_names_equal_iff (gT gM : Globals) (hT : gT.fTestNet = true)
    (hM : gM.fTestNet = false) (c1 c2 : String) :
    (privateKeyName gT c1 = privateKeyName gM c2 ↔ c2 = c1 ++ "testnet") ∧
      (publicKeyName gT c1 = publicKeyName gM c2 ↔ c2 = c1 ++ "testnet") ∧
      (c1.length = c2.length →
        privateKeyName gT c1 ≠ privateKeyName gM c2 ∧
          publicKeyName gT c1 ≠ publicKeyName gM c2) := by
  have hp : privateKeyName gT c1 = privateKeyName gM c2 ↔ c2 = c1 ++ "testnet" := by
    simp only [privateKeyName, GetNetSuffix_testnet gT hT, GetNetSuffix_mainnet gM hM,
      String.append_empty, String.append_assoc, String_append_left_cancel]
    exact eq_comm
  have hq : publicKeyName gT c1 = publicKeyName gM c2 ↔ c2 = c1 ++ "testnet" := by
    simp only [publicKeyName, GetNetSuffix_testnet gT hT, GetNetSuffix_mainnet gM hM,
      String.append_empty, String.append_assoc, String_append_left_cancel]
    exact eq_comm
  refine ⟨hp, hq, ?_⟩
  intro hlen
  have hne : c2 ≠ c1 ++ "testnet" := by
    intro e
    have hl := congrArg String.length e
    rw [String.length_append] at hl
    have h7 : ("testnet" : String).length = 7 := by decide
    omega
  exact ⟨fun e => hne (hp.1 e), fun e => hne (hq.1 e)⟩

/-- The names of "cpid1" on the test-net node `node2` and on the main-net node `node1`. -/
theorem netsuffix_names_equal_iff_witness :
    node2.fTestNet = true ∧ node1.fTestNet = false ∧
      privateKeyName node2 "cpid1" = "privatekeycpid1testnet" ∧
      privateKeyName node1 "cpid1" = "privatekeycpid1" ∧
      privateKeyName node2 "cpid1" ≠ privateKeyName node1 "cpid1" ∧
      publicKeyName node2 "cpid1" ≠ publicKeyName node1 "cpid1" :=
  ⟨rfl, rfl, by decide, by decide,
    (netsuffix_names_equal_iff node2 node1 rfl rfl "cpid1" "cpid1").2.2 rfl⟩

/-- C15. `BeaconTimeStamp cpid zero` is 0 when `zero` is set and the reward weight of the
CPID is 0, and the cached time stamp otherwise. It reads no best block: two states with
the same cache entry for the CPID give the same result, whatever their best block, so a
beacon that `GetBeaconPublicKey` treats as stale keeps its time stamp. -/
theorem BeaconTimeStamp_raw (W : String → Int) (g : Globals) (cpid : String) (zero : Bool) :
    (BeaconTimeStamp W g cpid zero).1 =
        (if zero = true ∧ W cpid = 0 then 0 else (g.ReadCache "beacon" cpid).timestamp) ∧
      (∀ g2 : Globals, g2.ReadCache "beacon" cpid = g.ReadCache "beacon" cpid →
        (BeaconTimeStamp W g2 cpid zero).1 = (BeaconTimeStamp W g cpid zero).1) ∧
      (∀ (X : Externals) (adv : Bool), (zero = false ∨ W cpid ≠ 0) →
        GetBeaconPublicKey X g cpid adv = "" →
        (BeaconTimeStamp W g cpid zero).1 = (g.ReadCache "beacon" cpid).timestamp) := by
  have h1 : ∀ g : Globals, (BeaconTimeStamp W g cpid zero).1 =
      (if zero = true ∧ W cpid = 0 then 0 else (g.ReadCache "beacon" cpid).timestamp) := by
    intro g
    simp only [BeaconTimeStamp]
    split_ifs <;> rfl
  refine ⟨h1 g, ?_, ?_⟩
  · intro g2 he
    rw [h1 g2, h1 g, he]
  · intro X adv hz _
    rw [h1 g, if_neg]
    rintro ⟨hz1, hz2⟩
    rcases hz with hz | hz
    · rw [hz] at hz1
      exact Bool.false_ne_true hz1
    · exact hz hz2

/-- The beacon of "cpid1" on `nodeLate`, stale for an advertiser, with reward weight 0. -/
theorem BeaconTimeStamp_raw_witness :
    GetBeaconPublicKey stdExternals nodeLate "cpid1" true = "" ∧
      (BeaconTimeStamp (fun _ => 0) nodeLate "cpid1" false).1 = 1000 ∧
      (BeaconTimeStamp (fun _ => 0) nodeLate "cpid1" true).1 =
        if true = true ∧ (0 : Int) = 0 then 0 else 1000 :=
  ⟨by decide,
    (BeaconTimeStamp_raw (fun _ => 0) nodeLate "cpid1" false).2.2 stdExternals true
      (Or.inl rfl) (by decide),
    (BeaconTimeStamp_raw (fun _ => 0) nodeLate "cpid1" true).1⟩

theorem publicKeyName_ne_privateKeyName (g : Globals) (cpid : String) :
    privateKeyName g cpid ≠ publicKeyName g cpid := by
  intro h
  have hd := congrArg String.data h
  simp only [privateKeyName, publicKeyName, String.data_append] at hd
  simp at hd

/-- C16. `StoreBeaconKeys` returns true exactly when the write of the public key and the
write of the private key both succeed, and the key store is then the one left by the two
writes, the public key first and the private key on top of it, with both keys read under
their names. When the write of the public key fails, no other write is made: the key
store is the one that write left, and what is read under the private-key name is
unchanged. When it succeeds and the write of the private key fails, the result is
false, the key store is the one the second write left, and the public key is still read
under its name: nothing is rolled back. -/
theorem StoreBeaconKeys_writes {σ : Type} (K : KeyServices σ) (g : Globals) (st : σ)
    (cpid pubKey privKey : String) :
    ((StoreBeaconKeys K g st cpid pubKey privKey).1 = true ↔
        (K.WriteKey st (publicKeyName g cpid) pubKey).1 = true ∧
          (K.WriteKey (K.WriteKey st (publicKeyName g cpid) pubKey).2
            (privateKeyName g cpid) privKey).1 = true) ∧
      ((K.WriteKey st (publicKeyName g cpid) pubKey).1 = false →
        StoreBeaconKeys K g st cpid pubKey privKey =
            (false, (K.WriteKey st (publicKeyName g cpid) pubKey).2) ∧
          ∀ read : σ → String → String, WriteKeepsOthers K read →
            read (StoreBeaconKeys K g st cpid pubKey privKey).2 (privateKeyName g cpid) =
              read st (privateKeyName g cpid)) ∧
      ((K.WriteKey st (publicKeyName g cpid) pubKey).1 = true →
        (K.WriteKey (K.WriteKey st (publicKeyName g cpid) pubKey).2
          (privateKeyName g cpid) privKey).1 = false →
        StoreBeaconKeys K g st cpid pubKey privKey =
            (false, (K.WriteKey (K.WriteKey st (publicKeyName g cpid) pubKey).2
              (privateKeyName g cpid) privKey).2) ∧
          ∀ read : σ → String → String, WriteKeepsOthers K read → WriteShows K read →
            read (StoreBeaconKeys K g st cpid pubKey privKey).2 (publicKeyName g cpid) =
              pubKey) ∧
      ((K.WriteKey st (publicKeyName g cpid) pubKey).1 = true →
        (K.WriteKey (K.WriteKey st (publicKeyName g cpid) pubKey).2
          (privateKeyName g cpid) privKey).1 = true →
        StoreBeaconKeys K g st cpid pubKey privKey =
            (true, (K.WriteKey (K.WriteKey st (publicKeyName g cpid) pubKey).2
              (privateKeyName g cpid) privKey).2) ∧
          ∀ read : σ → String → String, WriteKeepsOthers K read → WriteShows K read →
            read (StoreBeaconKeys K g st cpid pubKey privKey).2 (publicKeyName g cpid) =
                pubKey ∧
              read (StoreBeaconKeys K g st cpid pubKey privKey).2 (privateKeyName g cpid) =
                privKey) := by
  refine ⟨?_, ?_, ?_, ?_⟩
  · simp only [StoreBeaconKeys, publicKeyName, privateKeyName]
    split_ifs <;> simp_all
  · intro h1
    have hs : StoreBeaconKeys K g st cpid pubKey privKey =
        (false, (K.WriteKey st (publicKeyName g cpid) pubKey).2) := by
      simp only [publicKeyName] at h1
      simp only [StoreBeaconKeys, publicKeyName, h1, if_true]
    refine ⟨hs, ?_⟩
    intro read hframe
    rw [hs]
    exact hframe st _ _ _ (publicKeyName_ne_privateKeyName g cpid)
  · intro h1 h2
    have hs : StoreBeaconKeys K g st cpid pubKey privKey =
        (false, (K.WriteKey (K.WriteKey st (publicKeyName g cpid) pubKey).2
          (privateKeyName g cpid) privKey).2) := by
      simp only [publicKeyName, privateKeyName] at h1 h2
      simp only [StoreBeaconKeys, publicKeyName, privateKeyName, h1, h2, if_true]
      simp
    refine ⟨hs, ?_⟩
    intro read hframe hshow
    rw [hs]
    simp only
    rw [hframe _ _ _ _ (fun e => publicKeyName_ne_privateKeyName g cpid e.symm)]
    exact hshow st _ _ h1
  · intro h1 h2
    have hs : StoreBeaconKeys K g st cpid pubKey privKey =
        (true, (K.WriteKey (K.WriteKey st (publicKeyName g cpid) pubKey).2
          (privateKeyName g cpid) privKey).2) := by
      simp only [publicKeyName, privateKeyName] at h1 h2
      simp only [StoreBeaconKeys, publicKeyName, privateKeyName, h1, h2]
      simp
    refine ⟨hs, ?_⟩
    intro read hframe hshow
    rw [hs]
    simp only
    refine ⟨?_, hshow _ _ _ h2⟩
    rw [hframe _ _ _ _ (fun e => publicKeyName_ne_privateKeyName g cpid e.symm)]
    exact hshow st _ _ h1

/-! ## Further properties of `VerifyBeaconContractTx` -/

/-- C17 (exact boundary). With chain context, a non-empty cached value and an age of
exactly 5*2592000, every complete add-beacon transaction is rejected, the one with the
cached public key included: the validator leaves through the lockout test, as the line
it logs shows, and does not reach the comparison of the keys. -/
theorem boundary_age_rejects (X : Externals) (g : Globals) (tx : CTransaction)
    (b : CBlockIndex) (hadd : IsAddBeacon X tx) (hc : IsComplete X tx)
    (hctx : g.pindexBest = some b) (hval : (cachedEntry X g tx).value ≠ "")
    (hage : lockAge X g tx = 5 * 2592000) :
    VerifyBeaconContractTx X g tx =
      (false, if g.fDebug10 then [ageViolationLine 12960000] else []) := by
  have hw : wrapInt64 ((tx.nLockTime : Int) -
      (g.ReadCache "beacon" (X.ExtractXML tx.hashBoinc "<MK>" "</MK>")).timestamp) =
      12960000 := by
    simp only [lockAge, cachedEntry, claimedCPID] at hage
    rw [hage]
    exact wrapInt64_of_range _ (by omega) (by omega)
  obtain ⟨hMT, hMA⟩ := hadd
  obtain ⟨h1, h2, h3, h4⟩ := hc
  simp only [messageType, messageAction, txElements, contractValue, claimedCPID,
    cachedEntry, noElements] at *
  simp only [VerifyBeaconContractTx, hMT, hMA, hctx, hw]
  simp [h1, h2, h3, h4, hval, ageViolationLine]

/-- A renewal with the cached key at age 5*2592000, on a node that logs. -/
theorem boundary_age_rejects_witness :
    lockAge stdExternals node2 ⟨payloadA, 12961000⟩ = 5 * 2592000 ∧
      (txElements stdExternals ⟨payloadA, 12961000⟩).publickey =
        (cachedElements stdExternals node2 ⟨payloadA, 12961000⟩).publickey ∧
      VerifyBeaconContractTx stdExternals node2 ⟨payloadA, 12961000⟩ =
        (false, [ageViolationLine 12960000]) :=
  ⟨by decide, by decide,
    boundary_age_rejects stdExternals node2 ⟨payloadA, 12961000⟩ ⟨5000, 77⟩
      (by decide) (by decide) rfl (by decide) (by decide)⟩

/-- C18, as stated, fails: a first beacon that claims "cpid2" and carries the record of
"cpid1" is accepted. -/
theorem accepted_with_another_cpid :
    IsAddBeacon stdExternals ⟨payloadMismatch, 1001⟩ ∧
      claimedCPID stdExternals ⟨payloadMismatch, 1001⟩ = "cpid2" ∧
      txElements stdExternals ⟨payloadMismatch, 1001⟩ = ⟨"cpid1", "addr", "pkB"⟩ ∧
      (VerifyBeaconContractTx stdExternals node1 ⟨payloadMismatch, 1001⟩).1 = true := by
  decide

/-- C18, amended. For every add-beacon transaction that `VerifyBeaconContractTx` accepts,
the cpid decoded from the contract value and the claimed CPID are both non-empty, as are
the decoded address and public key. The validator does not compare the decoded cpid with
the claimed CPID. -/
theorem accepted_add_beacon_complete (X : Externals) (g : Globals) (tx : CTransaction)
    (hadd : IsAddBeacon X tx) (hacc : (VerifyBeaconContractTx X g tx).1 = true) :
    (txElements X tx).cpid ≠ "" ∧ claimedCPID X tx ≠ "" ∧
      (txElements X tx).address ≠ "" ∧ (txElements X tx).publickey ≠ "" := by
  have hno : ¬ ((txElements X tx).cpid = "" ∨ (txElements X tx).address = "" ∨
      (txElements X tx).publickey = "" ∨ claimedCPID X tx = "") := by
    intro hinc
    rw [verify_of_incomplete X g tx hadd hinc] at hacc
    exact Bool.false_ne_true hacc
  exact ⟨fun e => hno (Or.inl e), fun e => hno (Or.inr (Or.inr (Or.inr e))),
    fun e => hno (Or.inr (Or.inl e)), fun e => hno (Or.inr (Or.inr (Or.inl e)))⟩

/-- The accepted first beacon of `payloadMismatch`: both strings non-empty, and different. -/
theorem accepted_add_beacon_complete_witness :
    (txElements stdExternals ⟨payloadMismatch, 1001⟩).cpid ≠
        claimedCPID stdExternals ⟨payloadMismatch, 1001⟩ ∧
      ((txElements stdExternals ⟨payloadMismatch, 1001⟩).cpid ≠ "" ∧
        claimedCPID stdExternals ⟨payloadMismatch, 1001⟩ ≠ "" ∧
        (txElements stdExternals ⟨payloadMismatch, 1001⟩).address ≠ "" ∧
        (txElements stdExternals ⟨payloadMismatch, 1001⟩).publickey ≠ "") :=
  ⟨by decide,
    accepted_add_beacon_complete stdExternals node1 ⟨payloadMismatch, 1001⟩
      (by decide) (by decide)⟩

/-- Splitting the C string of a text and the whole text, with the modelled `split`: the
fields before the last one of the C string are shared, and its last field is empty when
the field of the whole text at that place is. -/
theorem split_c_str_fields (s : String) :
    ∃ (init : List String) (l lx : String) (more : List String),
      split (c_str s) ";" = init ++ [l] ∧ split s ";" = init ++ lx :: more ∧
        (lx = "" → l = "") := by
  have hsplit : s.data = (c_str s).data ++ s.data.dropWhile (fun c => c ≠ Char.ofNat 0) := by
    simp [c_str]
  obtain ⟨init, l, x, more, h1, h2⟩ :=
    splitLoop_append ';' (c_str s).data (s.data.dropWhile (fun c => c ≠ Char.ofNat 0)) []
  rw [← hsplit] at h2
  refine ⟨init.map String.mk, String.mk l, String.mk (l ++ x), more.map String.mk,
    by simp [split, h1], by simp [split, h2], ?_⟩
  intro hx
  have hnil : l ++ x = [] := by
    have := congrArg String.data hx
    simpa using this
  simp at hnil
  simp [hnil.1]

/-- With the modelled `split`: when the whole text has fewer than 4 fields or an empty
field 3, so has its C string. -/
theorem no_key_field_c_str (s : String)
    (h : (split s ";").length < 4 ∨ (split s ";")[3]? = some "") :
    (split (c_str s) ";").length < 4 ∨ (split (c_str s) ";")[3]? = some "" := by
  obtain ⟨init, l, lx, more, e1, e2, hl⟩ := split_c_str_fields s
  rw [e1]; rw [e2] at h
  rcases init with _ | ⟨a, _ | ⟨b, _ | ⟨c, _ | ⟨e, rest⟩⟩⟩⟩
  · simp
  · simp
  · simp
  · simp at h ⊢
    rcases h with h | h
    · omega
    · exact hl h
  · simp at h ⊢
    rcases h with h | h
    · omega
    · exact Or.inr h

/-- C20, as stated, fails in its closing clause. The cached value of "cpid3" decodes to
three fields and dates from 1000; with chain context, a complete add-beacon transaction
for "cpid3" with lock time 1000 (age 0) or lock time 0 (age -1000) is accepted, long
before the age exceeds 6*2592000. -/
theorem malformed_cached_beacon_accepted_at_age_zero :
    nodeLate2.pindexBest = some ⟨12961100, 20⟩ ∧
      cachedEntry stdExternals nodeLate2 ⟨payloadC3, 1000⟩ = ⟨"YTtiO2M=", 1000⟩ ∧
      split (DecodeBase64 "YTtiO2M=") ";" = ["a", "b", "c"] ∧
      IsAddBeacon stdExternals ⟨payloadC3, 1000⟩ ∧
      IsComplete stdExternals ⟨payloadC3, 1000⟩ ∧
      lockAge stdExternals nodeLate2 ⟨payloadC3, 1000⟩ = 0 ∧
      (VerifyBeaconContractTx stdExternals nodeLate2 ⟨payloadC3, 1000⟩).1 = true ∧
      lockAge stdExternals nodeLate2 ⟨payloadC3, 0⟩ = -1000 ∧
      (VerifyBeaconContractTx stdExternals nodeLate2 ⟨payloadC3, 0⟩).1 = true := by
  decide

/-- C20, amended. With chain context, when the cached value of the claimed CPID is
non-empty and decodes to fewer than 4 fields or to an empty field 3, every complete
add-beacon transaction with 1 <= age <= 6*2592000 is rejected: in the grace window
because the cached public key decodes as empty while the one of a complete transaction
is not, below it by the lockout. With age <= 0 or age > 6*2592000 it is accepted (lock
time an `unsigned int`, cached timestamp an `int64_t`). The fields are those of the C
string the validator splits, for every `split`, or those of the whole decoding, for the
modelled `split`. -/
theorem malformed_cached_beacon_rejects (X : Externals) (g : Globals) (tx : CTransaction)
    (b : CBlockIndex) (hadd : IsAddBeacon X tx) (hc : IsComplete X tx)
    (hctx : g.pindexBest = some b) (hval : (cachedEntry X g tx).value ≠ "")
    (hmal : (cachedFields X g (claimedCPID X tx)).length < 4 ∨
      (cachedFields X g (claimedCPID X tx))[3]? = some "" ∨
      (X.split = split ∧
        ((split (X.DecodeBase64 (cachedEntry X g tx).value) ";").length < 4 ∨
          (split (X.DecodeBase64 (cachedEntry X g tx).value) ";")[3]? = some ""))) :
    (1 ≤ lockAge X g tx → lockAge X g tx ≤ 6 * 2592000 →
        (VerifyBeaconContractTx X g tx).1 = false) ∧
      (lockAge X g tx ≤ 0 ∨ 6 * 2592000 < lockAge X g tx →
        tx.nLockTime < 4294967296 →
        -9223372036854775808 ≤ (cachedEntry X g tx).timestamp →
        (cachedEntry X g tx).timestamp < 9223372036854775808 →
        (VerifyBeaconContractTx X g tx).1 = true) := by
  have hcode : (cachedFields X g (claimedCPID X tx)).length < 4 ∨
      (cachedFields X g (claimedCPID X tx))[3]? = some "" := by
    rcases hmal with h | h | ⟨hsplit, h⟩
    · exact Or.inl h
    · exact Or.inr h
    · simp only [cachedFields, hsplit]
      exact no_key_field_c_str _ h
  have hpk : (cachedElements X g tx).publickey = "" := by
    simp only [cachedElements, cachedEntry, cachedFields] at *
    rw [GetBeaconElements_publickey]
    rcases hcode with h | h
    · rw [if_pos (Or.inr h)]
    · split_ifs
      · rfl
      · simp only [List.getD_eq_getElem?_getD, h, Option.getD_some]
  constructor
  · intro hlo hhi
    have hw : wrapInt64 (lockAge X g tx) = lockAge X g tx :=
      wrapInt64_of_range _ (by omega) (by omega)
    rw [verify_of_cached X g tx hadd hc hval (lockAge X g tx) (by rw [hctx]; exact hw)]
    by_cases h5 : lockAge X g tx ≤ 12960000
    · rw [if_pos ⟨hlo, h5⟩]
    · rw [if_neg (by omega), if_pos ⟨by omega, by omega⟩, hpk]
      exact decide_eq_false hc.2.2.1
  · intro hage hlock hts1 hts2
    rw [verify_of_cached X g tx hadd hc hval (wrapInt64 (lockAge X g tx)) (by rw [hctx])]
    by_cases hov : lockAge X g tx < 9223372036854775808
    · have hw : wrapInt64 (lockAge X g tx) = lockAge X g tx :=
        wrapInt64_of_range _ (by simp only [lockAge] at *; omega) hov
      rw [hw, if_neg (by omega), if_neg (by omega)]
    · have hw : wrapInt64 (lockAge X g tx) < 0 :=
        wrapInt64_of_above _ (by omega) (by simp only [lockAge] at *; omega)
      rw [if_neg (by omega), if_neg (by omega)]

/-- The beacon of "cpid3", whose cached value decodes to three fields: a complete
renewal 100 seconds past five months is rejected. -/
theorem malformed_cached_beacon_rejects_witness :
    cachedEntry stdExternals nodeLate2 ⟨payloadC3, 12961100⟩ = ⟨"YTtiO2M=", 1000⟩ ∧
      split (DecodeBase64 "YTtiO2M=") ";" = ["a", "b", "c"] ∧
      txElements stdExternals ⟨payloadC3, 12961100⟩ = ⟨"cpid3", "addr", "pkC"⟩ ∧
      lockAge stdExternals nodeLate2 ⟨payloadC3, 12961100⟩ = 5 * 2592000 + 100 ∧
      (VerifyBeaconContractTx stdExternals nodeLate2 ⟨payloadC3, 12961100⟩).1 = false :=
  ⟨by decide, by decide, by decide, by decide,
    (malformed_cached_beacon_rejects stdExternals nodeLate2 ⟨payloadC3, 12961100⟩
      ⟨12961100, 20⟩ (by decide) (by decide) rfl (by decide)
      (Or.inr (Or.inr ⟨rfl, Or.inl (by decide)⟩))).1 (by decide) (by decide)⟩

/-! ## Concrete runs of `StoreBeaconKeys` -/

theorem demoKeys_WriteKeepsOthers :
    WriteKeepsOthers demoKeys (fun st k => st.get k "") := by
  intro st k v k2 hne
  have hb : (k2 == k) = false := by simpa using hne
  cases hw : st.writesLeft with
  | zero => simp [demoKeys, hw]
  | succ n => simp [demoKeys, hw, KeyFile.get, List.lookup, hb]

theorem demoKeys_WriteShows : WriteShows demoKeys (fun st k => st.get k "") := by
  intro st k v hok
  cases hw : st.writesLeft with
  | zero => simp [demoKeys, hw] at hok
  | succ n => simp [demoKeys, hw, KeyFile.get, List.lookup]

/-- A key file that accepts one write: the public key is written, the private key is
not, the result is false and the public key stays. A key file that accepts two writes:
the result is true and both keys are read under their names. -/
theorem StoreBeaconKeys_writes_witness :
    (StoreBeaconKeys demoKeys node1 keyFile1 "cpid1" "P" "S").1 = false ∧
      (StoreBeaconKeys demoKeys node1 keyFile1 "cpid1" "P" "S").2.get
        (publicKeyName node1 "cpid1") "" = "P" ∧
      (StoreBeaconKeys demoKeys node1 keyFile1 "cpid1" "P" "S").2.get
        (privateKeyName node1 "cpid1") "" = "good" ∧
      StoreBeaconKeys demoKeys node1 keyFile3 "cpid1" "P" "S" =
        (true, ⟨[("privatekeycpid1", "S"), ("publickeycpid1", "P")], 0⟩) ∧
      ((StoreBeaconKeys demoKeys node1 keyFile3 "cpid1" "P" "S").2.get
          (publicKeyName node1 "cpid1") "" = "P" ∧
        (StoreBeaconKeys demoKeys node1 keyFile3 "cpid1" "P" "S").2.get
          (privateKeyName node1 "cpid1") "" = "S") :=
  ⟨by decide,
    ((StoreBeaconKeys_writes demoKeys node1 keyFile1 "cpid1" "P" "S").2.2.1
      (by decide) (by decide)).2 (fun st k => st.get k "")
      demoKeys_WriteKeepsOthers demoKeys_WriteShows,
    by decide,
    ((StoreBeaconKeys_writes demoKeys node1 keyFile3 "cpid1" "P" "S").2.2.2
      (by decide) (by decide)).1,
    ((StoreBeaconKeys_writes demoKeys node1 keyFile3 "cpid1" "P" "S").2.2.2
      (by decide) (by decide)).2 (fun st k => st.get k "")
      demoKeys_WriteKeepsOthers demoKeys_WriteShows⟩

end Beacon
